import Mathlib

/-!
# KVM introspection driver (libvmi/driver/kvm/kvm.c)

A shallow embedding of the pause/resume coordinator (`kvm_pause_vm`,
`kvm_resume_vm`), of the memory access controller (`kvm_set_mem_access`), of
the event dispatcher (`kvm_events_listen` and its handlers), of the table of
model-specific registers (`translate_msr_index`) and of the connection
manager (`init_kvmi`, `cb_kvmi_connect`, `kvm_destroy`) of the KVM driver,
together with the properties of these functions.

The driver talks to the hypervisor through libkvmi. libkvmi is not part of
the driver source, so it is modelled here as a small deterministic machine
(`KvmiDom`): a per-VCPU page-access store, a queue of events still to be
delivered, a script that says which of the coming requests fail, and a trace
of everything the driver asked for.
-/

namespace KvmDriver

/-! ## Constants -/

/-- Return status of the driver entry points (`status_t`). -/
inductive status_t
  | VMI_SUCCESS
  | VMI_FAILURE
  deriving DecidableEq, Repr

open status_t

/-- Modelled from the spec: the enum `vmi_mem_access_t` is declared in the
public libvmi header (`libvmi/events.h`), which is not among the driver
sources. The generic permission request is a bitset over read, write and
execute, next to the "none" request; the numeric values are the ones of
that header. -/
def VMI_MEMACCESS_INVALID : Nat := 0
/-- See `VMI_MEMACCESS_INVALID`. -/
def VMI_MEMACCESS_N : Nat := 1
/-- See `VMI_MEMACCESS_INVALID`. -/
def VMI_MEMACCESS_R : Nat := 2
/-- See `VMI_MEMACCESS_INVALID`. -/
def VMI_MEMACCESS_W : Nat := 4
/-- See `VMI_MEMACCESS_INVALID`. -/
def VMI_MEMACCESS_X : Nat := 8
/-- See `VMI_MEMACCESS_INVALID`. -/
def VMI_MEMACCESS_RW : Nat := 6
/-- See `VMI_MEMACCESS_INVALID`. -/
def VMI_MEMACCESS_RX : Nat := 10
/-- See `VMI_MEMACCESS_INVALID`. -/
def VMI_MEMACCESS_WX : Nat := 12
/-- See `VMI_MEMACCESS_INVALID`. -/
def VMI_MEMACCESS_RWX : Nat := 14
/-- See `VMI_MEMACCESS_INVALID`. -/
def VMI_MEMACCESS_W2X : Nat := 16
/-- See `VMI_MEMACCESS_INVALID`. -/
def VMI_MEMACCESS_RWX2N : Nat := 32

/-- Modelled from the spec: the native page-access bits of the transport
(`KVMI_PAGE_ACCESS_R/W/X`) come from the libkvmi header, which is not among
the driver sources. The native mask is a bitset over read, write and
execute; the values are the ones of that header. -/
def KVMI_PAGE_ACCESS_R : Nat := 1
/-- See `KVMI_PAGE_ACCESS_R`. -/
def KVMI_PAGE_ACCESS_W : Nat := 2
/-- See `KVMI_PAGE_ACCESS_R`. -/
def KVMI_PAGE_ACCESS_X : Nat := 4

/-- The `errno` value of a wait that ended without an event. -/
def ETIMEDOUT : Nat := 110

/-- The event constants of the libkvmi header that the driver uses. The
header is not among the driver sources and the driver never depends on
their numeric values, so they are parameters of the embedding. -/
structure KvmiConsts where
  /-- Event type tag of a pause confirmation. -/
  KVMI_EVENT_PAUSE_VCPU : Nat
  /-- Event-control flag that turns page-fault delivery on. -/
  KVMI_EVENT_PF_FLAG : Nat
  /-- Reply action "continue". -/
  KVMI_EVENT_ACTION_CONTINUE : Nat
  /-- Event type tag of a control-register write. -/
  KVMI_EVENT_CR : Nat
  /-- Event type tag of a breakpoint. -/
  KVMI_EVENT_BREAKPOINT : Nat
  /-- Event type tag of a page fault. -/
  KVMI_EVENT_PF : Nat
  /-- Number of event types, the size of the handler table. -/
  KVMI_NUM_EVENTS : Nat
  /-- Event-control flag of control-register events. -/
  KVMI_EVENT_CR_FLAG : Nat
  /-- Event-control flag of model-specific-register events. -/
  KVMI_EVENT_MSR_FLAG : Nat
  deriving DecidableEq, Repr

/-! ## The transport -/

/-- The part of `struct kvmi_dom_event` that the driver reads: the sequence
number, the type tag `event.common.event`, the VCPU the event comes from,
the registers `event.common.regs.rip` and `event.common.sregs.cr2`, the
address of the breakpoint member and the fields of the page-fault member of
the union. -/
structure kvmi_dom_event where
  seq : Nat
  event : Nat
  vcpu : Nat
  /-- Register `event.common.regs.rip`. -/
  rip : Nat := 0
  /-- Register `event.common.sregs.cr2`. -/
  cr2 : Nat := 0
  /-- Member `event.breakpoint.gpa`. -/
  breakpoint_gpa : Nat := 0
  /-- Member `event.page_fault.gva`. -/
  page_fault_gva : Nat := 0
  /-- Member `event.page_fault.gpa`. -/
  page_fault_gpa : Nat := 0
  /-- Member `event.page_fault.mode`. -/
  page_fault_mode : Nat := 0
  deriving DecidableEq, Repr

/-- What the driver does to the outside world: one constructor per libkvmi
request it issues, and `free` for releasing a popped event. -/
inductive Effect
  | control_events (vcpu flags : Nat)
  | get_page_access (vcpu gpa : Nat)
  | set_page_access (vcpu gpa access : Nat)
  | pause_all_vcpus
  | wait_event (timeout : Nat)
  | pop_event
  | reply_event (seq action event : Nat)
  | free (ev : kvmi_dom_event)
  deriving DecidableEq, Repr

/-- Modelled from the spec: the transport collaborator (libkvmi) of section
6, which is not among the driver sources. It offers wait-for-event,
pop-event, send-reply, get/set-page-access-mask, control-event-delivery and
pause-all-VCPUs. The state of one connected domain:

* `vcpu_count`: the number of VCPUs the transport reports;
* `page_access vcpu gpa`: the native access mask stored for an address;
* `queue`: the events the hypervisor still delivers, in arrival order;
* `script`: `script i` is the `errno` of the `i`-th coming request, `0` for
  a request that succeeds (any pattern of failures is a script);
* `errno`: the error of the last failed request;
* `trace`: every effect of the driver so far, oldest first. -/
structure KvmiDom where
  vcpu_count : Nat
  page_access : Nat → Nat → Nat
  queue : List kvmi_dom_event
  script : Nat → Nat
  errno : Nat
  trace : List Effect

/-- Record an effect that is not a request and cannot fail. -/
def KvmiDom.log (d : KvmiDom) (e : Effect) : KvmiDom :=
  { d with trace := d.trace ++ [e] }

/-- Take one request: it is recorded in the trace and consumes the head of
the script; a nonzero head is stored in `errno`. -/
def KvmiDom.request (d : KvmiDom) (e : Effect) : KvmiDom :=
  { d with
    script := fun i => d.script (i + 1)
    errno := if d.script 0 = 0 then d.errno else d.script 0
    trace := d.trace ++ [e] }

/-- Modelled from the spec: control-event-delivery(VCPU, event-type-flags).
Returns `0` on success and `-1` on failure. -/
def kvmi_control_events (d : KvmiDom) (vcpu flags : Nat) : Int × KvmiDom :=
  if d.script 0 = 0 then (0, d.request (.control_events vcpu flags))
  else (-1, d.request (.control_events vcpu flags))

/-- Modelled from the spec: get-page-access-mask. On success the mask stored
for the address is written to the `unsigned char` out-parameter (second
component); on failure nothing is written. -/
def kvmi_get_page_access (d : KvmiDom) (vcpu gpa : Nat) : Int × Option Nat × KvmiDom :=
  if d.script 0 = 0 then
    (0, some (d.page_access vcpu gpa % 256), d.request (.get_page_access vcpu gpa))
  else (-1, none, d.request (.get_page_access vcpu gpa))

/-- Modelled from the spec: set-page-access-mask, for one address. On
success the mask of that address on that VCPU is replaced; on failure the
store is left as it was. -/
def kvmi_set_page_access (d : KvmiDom) (vcpu gpa access : Nat) : Int × KvmiDom :=
  if d.script 0 = 0 then
    (0, { d.request (.set_page_access vcpu gpa access) with
          page_access := fun v g =>
            if v = vcpu ∧ g = gpa then access else d.page_access v g })
  else (-1, d.request (.set_page_access vcpu gpa access))

/-- Modelled from the spec: pause-all-VCPUs(→ count). On success the number
of VCPUs is written through the `count` pointer (second component: the new
value of `*count`); on failure `*count` keeps its value. -/
def kvmi_pause_all_vcpus (d : KvmiDom) (count : Nat) : Int × Nat × KvmiDom :=
  if d.script 0 = 0 then (0, d.vcpu_count, d.request .pause_all_vcpus)
  else (-1, count, d.request .pause_all_vcpus)

/-- Modelled from the spec: wait-for-event(timeout). The wait succeeds when
an event is available within the timeout. It fails with `ETIMEDOUT` when no
event is left to deliver, and with the scripted `errno` otherwise (which may
be `ETIMEDOUT` as well: the next event arrives after this slice). -/
def kvmi_wait_event (d : KvmiDom) (timeout : Nat) : Int × KvmiDom :=
  if d.queue = [] then
    (-1, { d.request (.wait_event timeout) with errno := ETIMEDOUT })
  else if d.script 0 = 0 then (0, d.request (.wait_event timeout))
  else (-1, d.request (.wait_event timeout))

/-- Modelled from the spec: pop-event. Hands over the oldest event. -/
def kvmi_pop_event (d : KvmiDom) : Int × Option kvmi_dom_event × KvmiDom :=
  match d.queue with
  | [] => (-1, none, d.request .pop_event)
  | ev :: rest =>
    if d.script 0 = 0 then (0, some ev, { d.request .pop_event with queue := rest })
    else (-1, none, d.request .pop_event)

/-- Modelled from the spec: send-reply(sequence, action). -/
def kvmi_reply_event (d : KvmiDom) (seq action event : Nat) : Int × KvmiDom :=
  if d.script 0 = 0 then (0, d.request (.reply_event seq action event))
  else (-1, d.request (.reply_event seq action event))

/-! ## Driver state -/

/-- The member `mem_event` of a `vmi_event_t`. -/
structure mem_access_event_t where
  in_access : Nat := 0
  out_access : Nat := 0
  gla : Nat := 0
  offset : Nat := 0
  deriving DecidableEq, Repr

/-- The member `interrupt_event` of a `vmi_event_t`. -/
structure interrupt_event_t where
  gfn : Nat := 0
  cr2 : Nat := 0
  offset : Nat := 0
  gla : Nat := 0
  reinject : Int := 0
  deriving DecidableEq, Repr

/-- A watcher, `vmi_event_t`: the callback it was registered with (the
number stands for the function pointer), and the fields that the handlers
fill in. The register copy `x86_regs` is left out: the driver never reads
it back. -/
structure vmi_event_t where
  callback : Nat
  vcpu_id : Nat := 0
  mem_event : mem_access_event_t := {}
  interrupt_event : interrupt_event_t := {}
  deriving DecidableEq, Repr

/-- The driver instance: the fields of `vmi_instance_t` and `kvm_instance_t`
that the embedded functions use, and the function-local static `pf_enabled`
of `kvm_set_mem_access`. -/
structure vmi_instance where
  /-- Field `vmi->num_vcpus`, an `unsigned int`. -/
  num_vcpus : Nat
  /-- Field `kvm->expected_pause_count`, an `unsigned int`. -/
  expected_pause_count : Nat
  /-- The `static bool pf_enabled` of `kvm_set_mem_access`. -/
  pf_enabled : Bool
  /-- Field `kvm->kvmi_dom`. -/
  kvmi_dom : KvmiDom
  /-- Hash table `vmi->interrupt_events`, keyed by the interrupt number. -/
  interrupt_events : List (Nat × vmi_event_t) := []
  /-- Hash table `vmi->mem_events_on_gfn`, keyed by the frame number. -/
  mem_events_on_gfn : List (Nat × vmi_event_t) := []
  /-- Hash table `vmi->mem_events_generic`, keyed by the access mask. -/
  mem_events_generic : List (Nat × vmi_event_t) := []
  /-- Flag `vmi->event_callback`. -/
  event_callback : Nat := 0
  /-- Every call of a watcher callback so far, with the event as the
  callback received it, oldest first. -/
  callbacks : List vmi_event_t := []

/-! ## Helpers -/

/-- Source function `reply_continue`: acknowledge an event with the action "continue". -/
def reply_continue (K : KvmiConsts) (dom : KvmiDom) (ev : kvmi_dom_event) :
    status_t × KvmiDom :=
  let r := kvmi_reply_event dom ev.seq K.KVMI_EVENT_ACTION_CONTINUE ev.event
  if r.1 ≠ 0 then (VMI_FAILURE, r.2) else (VMI_SUCCESS, r.2)

/-! ## Pause/resume coordinator -/

/-- Source function `kvm_pause_vm`. -/
def kvm_pause_vm (vmi : vmi_instance) : status_t × vmi_instance :=
  -- already paused ?
  if vmi.expected_pause_count ≠ 0 then (VMI_SUCCESS, vmi)
  else
    -- pause vcpus
    let r := kvmi_pause_all_vcpus vmi.kvmi_dom vmi.expected_pause_count
    if r.1 ≠ 0 then
      (VMI_FAILURE, { vmi with expected_pause_count := r.2.1, kvmi_dom := r.2.2 })
    else
      (VMI_SUCCESS, { vmi with expected_pause_count := r.2.1, kvmi_dom := r.2.2 })

/-- The `while (kvm->expected_pause_count)` loop of `kvm_resume_vm`. One unit
of fuel is one iteration; `none` means the fuel ran out before the loop was
left. The decrement is the one of an `unsigned int`. -/
def kvm_resume_loop (K : KvmiConsts) : Nat → vmi_instance → Option (status_t × vmi_instance)
  | fuel, vmi =>
    if vmi.expected_pause_count = 0 then some (VMI_SUCCESS, vmi)
    else match fuel with
      | 0 => none
      | fuel + 1 =>
        -- wait
        let w := kvmi_wait_event vmi.kvmi_dom 1000
        if w.1 ≠ 0 then some (VMI_FAILURE, { vmi with kvmi_dom := w.2 })
        else
          -- pop
          let p := kvmi_pop_event w.2
          if p.1 ≠ 0 then some (VMI_FAILURE, { vmi with kvmi_dom := p.2.2 })
          else match p.2.1 with
            | none => some (VMI_FAILURE, { vmi with kvmi_dom := p.2.2 })
            | some ev =>
              -- handle event
              if ev.event = K.KVMI_EVENT_PAUSE_VCPU then
                let count := (vmi.expected_pause_count + 4294967295) % 4294967296
                let r := reply_continue K p.2.2 ev
                if r.1 = VMI_FAILURE then
                  some (VMI_FAILURE,
                    { vmi with expected_pause_count := count, kvmi_dom := r.2.log (.free ev) })
                else
                  kvm_resume_loop K fuel
                    { vmi with expected_pause_count := count, kvmi_dom := r.2.log (.free ev) }
              else
                some (VMI_FAILURE, { vmi with kvmi_dom := p.2.2.log (.free ev) })

/-- Source function `kvm_resume_vm`. Every iteration of the loop that does not return
decrements the counter, so `expected_pause_count` iterations are enough. -/
def kvm_resume_vm (K : KvmiConsts) (vmi : vmi_instance) : Option (status_t × vmi_instance) :=
  -- already resumed ?
  if vmi.expected_pause_count = 0 then some (VMI_SUCCESS, vmi)
  else kvm_resume_loop K vmi.expected_pause_count vmi

/-! ## Event dispatcher -/

/-- Modelled from the spec: the interrupt number of a breakpoint, `INT3`,
is declared in the public libvmi header, which is not among the driver
sources. -/
def INT3 : Nat := 3

/-- Modelled from the spec: the flag `VMI_INIT_EVENTS` of `init_flags`, by
which the embedding library requests event support, is declared in the
public libvmi header, which is not among the driver sources. -/
def VMI_INIT_EVENTS : Nat := 4

/-- Lookup in a hash table (`g_hash_table_lookup`): the entry stored under
the key, if there is one. -/
def g_hash_table_lookup (table : List (Nat × vmi_event_t)) (key : Nat) : Option vmi_event_t :=
  (table.find? (fun entry => entry.1 = key)).map Prod.snd

/-- Source function `fill_ev_common_kvmi_to_libvmi`: the part that is kept
of it, the VCPU (the registers are copied into `x86_regs`, which is left out
of `vmi_event_t`). -/
def fill_ev_common_kvmi_to_libvmi (kvmi_event : kvmi_dom_event) (libvmi_event : vmi_event_t) :
    vmi_event_t :=
  { libvmi_event with vcpu_id := kvmi_event.vcpu }

/-- Source function `call_event_callback`: the flag `event_callback` is set
for the time of the call. What the callback does is user code; the call is
recorded with the event it receives. -/
def call_event_callback (vmi : vmi_instance) (event : vmi_event_t) : vmi_instance :=
  { vmi with event_callback := 0, callbacks := vmi.callbacks ++ [event] }

/-- Source function `process_register`. -/
def process_register (vmi : vmi_instance) (_event : kvmi_dom_event) : status_t × vmi_instance :=
  (VMI_SUCCESS, vmi)

/-- Source function `process_interrupt`, with the safety checks compiled in. -/
def process_interrupt (vmi : vmi_instance) (kvmi_event : kvmi_dom_event) :
    status_t × vmi_instance :=
  -- lookup vmi_event
  match g_hash_table_lookup vmi.interrupt_events INT3 with
  | none => (VMI_FAILURE, vmi)
  | some libvmi_event =>
    -- fill libvmi_event struct
    let e := fill_ev_common_kvmi_to_libvmi kvmi_event libvmi_event
    let e := { e with
      interrupt_event := {
        gfn := kvmi_event.breakpoint_gpa >>> 12
        cr2 := kvmi_event.cr2
        offset := kvmi_event.rip &&& 4095
        gla := kvmi_event.rip
        -- default reinject behavior: invalid
        reinject := -1 } }
    -- call user callback
    (VMI_SUCCESS, call_event_callback vmi e)

/-- The `out_access` that `process_pagefault` builds from the mode bits of
the event. -/
def build_out_access (mode : Nat) : Nat :=
  let out_access := VMI_MEMACCESS_INVALID
  let out_access :=
    if mode &&& KVMI_PAGE_ACCESS_R ≠ 0 then out_access ||| VMI_MEMACCESS_R else out_access
  let out_access :=
    if mode &&& KVMI_PAGE_ACCESS_W ≠ 0 then out_access ||| VMI_MEMACCESS_W else out_access
  let out_access :=
    if mode &&& KVMI_PAGE_ACCESS_X ≠ 0 then out_access ||| VMI_MEMACCESS_X else out_access
  out_access

/-- The lines of `process_pagefault` that fill a watcher before its
callback is called, the same in both branches. -/
def fill_mem_event (kvmi_event : kvmi_dom_event) (out_access : Nat)
    (libvmi_event : vmi_event_t) : vmi_event_t :=
  let e := fill_ev_common_kvmi_to_libvmi kvmi_event libvmi_event
  { e with
    mem_event := { e.mem_event with
      out_access := out_access
      gla := kvmi_event.page_fault_gva
      offset := kvmi_event.page_fault_gpa &&& 4095 } }

/-- The `ghashtable_foreach` loop of `process_pagefault` over the generic
watchers still to visit; the flag is `cb_issued`. -/
def generic_loop (kvmi_event : kvmi_dom_event) (out_access : Nat) :
    List (Nat × vmi_event_t) → vmi_instance → Bool → Bool × vmi_instance
  | [], vmi, cb_issued => (cb_issued, vmi)
  | (key, libvmi_event) :: rest, vmi, cb_issued =>
    if key &&& out_access ≠ 0 then
      generic_loop kvmi_event out_access rest
        (call_event_callback vmi (fill_mem_event kvmi_event out_access libvmi_event)) true
    else generic_loop kvmi_event out_access rest vmi cb_issued

/-- The second half of `process_pagefault`: the generic watchers. -/
def process_pagefault_generic (vmi : vmi_instance) (kvmi_event : kvmi_dom_event)
    (out_access : Nat) : status_t × vmi_instance :=
  if vmi.mem_events_generic.length ≠ 0 then
    let g := generic_loop kvmi_event out_access vmi.mem_events_generic vmi false
    if g.1 then (VMI_SUCCESS, g.2) else (VMI_FAILURE, g.2)
  else (VMI_FAILURE, vmi)

/-- Source function `process_pagefault`. -/
def process_pagefault (vmi : vmi_instance) (kvmi_event : kvmi_dom_event) :
    status_t × vmi_instance :=
  -- build out_access
  let out_access := build_out_access kvmi_event.page_fault_mode
  let gfn := kvmi_event.page_fault_gpa >>> 12
  -- lookup vmi_event
  --      standard ?
  if vmi.mem_events_on_gfn.length ≠ 0 then
    match g_hash_table_lookup vmi.mem_events_on_gfn gfn with
    | some libvmi_event =>
      if libvmi_event.mem_event.in_access &&& out_access ≠ 0 then
        -- call user callback
        (VMI_SUCCESS,
          call_event_callback vmi (fill_mem_event kvmi_event out_access libvmi_event))
      else process_pagefault_generic vmi kvmi_event out_access
    | none => process_pagefault_generic vmi kvmi_event out_access
  else
    --  generic ?
    process_pagefault_generic vmi kvmi_event out_access

/-- Source function `process_pause_event`: always fail, so that
`kvm_events_listen` fails too. -/
def process_pause_event (vmi : vmi_instance) (_kvmi_event : kvmi_dom_event) :
    status_t × vmi_instance :=
  (VMI_FAILURE, vmi)

/-- The type of the entries of `kvm->process_event`. -/
abbrev event_handler := vmi_instance → kvmi_dom_event → status_t × vmi_instance

/-- The table `kvm->process_event` as `kvm_init_vmi` leaves it: all entries
are null after `g_malloc0`, and the four handlers are stored, in the order
CR, BREAKPOINT, PF, PAUSE_VCPU, if `init_flags` has `VMI_INIT_EVENTS`. -/
def kvm_init_vmi_process_event (K : KvmiConsts) (init_flags : Nat) : Nat → Option event_handler :=
  if init_flags &&& VMI_INIT_EVENTS ≠ 0 then
    fun ev_reason =>
      if ev_reason = K.KVMI_EVENT_PAUSE_VCPU then some process_pause_event
      else if ev_reason = K.KVMI_EVENT_PF then some process_pagefault
      else if ev_reason = K.KVMI_EVENT_BREAKPOINT then some process_interrupt
      else if ev_reason = K.KVMI_EVENT_CR then some process_register
      else none
  else fun _ => none

/-- Source function `kvm_events_listen`, with the safety checks compiled in
and for valid `vmi` and `kvm` handles. The table `kvm->process_event` is the
argument `process_event`. -/
def kvm_events_listen (K : KvmiConsts) (process_event : Nat → Option event_handler)
    (vmi : vmi_instance) (timeout : Nat) : status_t × vmi_instance :=
  -- wait next event
  let w := kvmi_wait_event vmi.kvmi_dom timeout
  if w.1 ≠ 0 then
    if w.2.errno = ETIMEDOUT then
      -- no events !
      (VMI_SUCCESS, { vmi with kvmi_dom := w.2 })
    else (VMI_FAILURE, { vmi with kvmi_dom := w.2 })
  else
    -- pop event from queue
    let p := kvmi_pop_event w.2
    if p.1 ≠ 0 then (VMI_FAILURE, { vmi with kvmi_dom := p.2.2 })
    else match p.2.1 with
      | none => (VMI_FAILURE, { vmi with kvmi_dom := p.2.2 })
      | some event =>
        -- handle event
        let ev_reason := event.event
        match (if K.KVMI_NUM_EVENTS ≤ ev_reason then none else process_event ev_reason) with
        | none => (VMI_FAILURE, { vmi with kvmi_dom := p.2.2 })
        | some handler =>
          -- call handler
          let h := handler { vmi with kvmi_dom := p.2.2 } event
          if h.1 = VMI_FAILURE then
            (VMI_FAILURE, { h.2 with kvmi_dom := h.2.kvmi_dom.log (.free event) })
          else
            -- ack
            let r := reply_continue K h.2.kvmi_dom event
            if r.1 = VMI_FAILURE then
              (VMI_FAILURE, { h.2 with kvmi_dom := r.2.log (.free event) })
            else (VMI_SUCCESS, { h.2 with kvmi_dom := r.2 })

/-! ## Memory access controller -/

/-- The loop that enables page-fault events, from VCPU `vcpu` on with `n`
VCPUs to go; it stops at the first failure. The flag is
`pf_enabled_succeeded`. -/
def pf_enable_loop (K : KvmiConsts) : Nat → Nat → KvmiDom → Bool × KvmiDom
  | 0, _, d => (true, d)
  | n + 1, vcpu, d =>
    let r := kvmi_control_events d vcpu K.KVMI_EVENT_PF_FLAG
    if r.1 ≠ 0 then (false, r.2) else pf_enable_loop K n (vcpu + 1) r.2

/-- The loop that disables page-fault events on every VCPU; the result of
the requests is not looked at. -/
def pf_disable_loop : Nat → Nat → KvmiDom → KvmiDom
  | 0, _, d => d
  | n + 1, vcpu, d => pf_disable_loop n (vcpu + 1) (kvmi_control_events d vcpu 0).2

/-- The `switch (page_access_flag)`: the native mask to apply, or `none` in
the `default` case. The `~` is taken on an `int` and the result is stored in
an `unsigned char`. -/
def convert_access (page_access_flag kvmi_orig_access : Nat) : Option Nat :=
  if page_access_flag = VMI_MEMACCESS_N then some 0
  else if page_access_flag = VMI_MEMACCESS_R then
    some ((kvmi_orig_access &&& (4294967295 ^^^ KVMI_PAGE_ACCESS_R)) % 256)
  else if page_access_flag = VMI_MEMACCESS_W then
    some ((kvmi_orig_access &&& (4294967295 ^^^ KVMI_PAGE_ACCESS_W)) % 256)
  else if page_access_flag = VMI_MEMACCESS_X then
    some ((kvmi_orig_access &&& (4294967295 ^^^ KVMI_PAGE_ACCESS_X)) % 256)
  else if page_access_flag = VMI_MEMACCESS_RW then
    some ((kvmi_orig_access &&&
      (4294967295 ^^^ (KVMI_PAGE_ACCESS_R ||| KVMI_PAGE_ACCESS_W))) % 256)
  else if page_access_flag = VMI_MEMACCESS_WX then
    some ((kvmi_orig_access &&&
      (4294967295 ^^^ (KVMI_PAGE_ACCESS_W ||| KVMI_PAGE_ACCESS_X))) % 256)
  else if page_access_flag = VMI_MEMACCESS_RWX then some 0
  else none

/-- The loop that applies `kvmi_access`, from VCPU `vcpu` on with `n` VCPUs
to go; it stops at the first failure. The flag is `page_access_succeeded`. -/
def set_page_access_loop : Nat → Nat → KvmiDom → Nat → Nat → Bool × KvmiDom
  | 0, _, d, _, _ => (true, d)
  | n + 1, vcpu, d, gpa, kvmi_access =>
    let r := kvmi_set_page_access d vcpu gpa kvmi_access
    if r.1 ≠ 0 then (false, r.2) else set_page_access_loop n (vcpu + 1) r.2 gpa kvmi_access

/-- The loop that puts `kvmi_orig_access` back on every VCPU; the result of
the requests is not looked at. -/
def restore_page_access_loop : Nat → Nat → KvmiDom → Nat → Nat → KvmiDom
  | 0, _, d, _, _ => d
  | n + 1, vcpu, d, gpa, kvmi_orig_access =>
    restore_page_access_loop n (vcpu + 1)
      (kvmi_set_page_access d vcpu gpa kvmi_orig_access).2 gpa kvmi_orig_access

/-- The part of `kvm_set_mem_access` after the page-fault events are
enabled: read the mask, convert, apply, put back on failure. `gpfn` is an
`addr_t` (64 bits), so is `gpa`. -/
def set_mem_access_body (vmi : vmi_instance) (gpfn page_access_flag : Nat) :
    status_t × vmi_instance :=
  -- get previous access type
  let g := kvmi_get_page_access vmi.kvmi_dom 0 gpfn
  if g.1 ≠ 0 then (VMI_FAILURE, { vmi with kvmi_dom := g.2.2 })
  else match g.2.1 with
    | none => (VMI_FAILURE, { vmi with kvmi_dom := g.2.2 })
    | some kvmi_orig_access =>
      -- check access type and convert to KVMI
      match convert_access page_access_flag kvmi_orig_access with
      | none => (VMI_FAILURE, { vmi with kvmi_dom := g.2.2 })
      | some kvmi_access =>
        -- set page access
        let gpa := (gpfn <<< 12) % 18446744073709551616
        let s := set_page_access_loop vmi.num_vcpus 0 g.2.2 gpa kvmi_access
        if !s.1 then
          (VMI_SUCCESS,
            { vmi with kvmi_dom :=
                restore_page_access_loop vmi.num_vcpus 0 s.2 gpa kvmi_orig_access })
        else (VMI_SUCCESS, { vmi with kvmi_dom := s.2 })

/-- Source function `kvm_set_mem_access`, for valid `vmi` and `kvm` handles (the safety
checks only reject null pointers). -/
def kvm_set_mem_access (K : KvmiConsts) (vmi : vmi_instance) (gpfn page_access_flag : Nat) :
    status_t × vmi_instance :=
  -- enable PF events the first time we call this function
  if !vmi.pf_enabled then
    let a := pf_enable_loop K vmi.num_vcpus 0 vmi.kvmi_dom
    if !a.1 then
      -- disable PF for all vcpu and fail
      (VMI_FAILURE, { vmi with kvmi_dom := pf_disable_loop vmi.num_vcpus 0 a.2 })
    else
      set_mem_access_body { vmi with pf_enabled := true, kvmi_dom := a.2 } gpfn page_access_flag
  else set_mem_access_body vmi gpfn page_access_flag

/-! ## Register translator -/

/-- Modelled from the spec: the register identifiers (`reg_t`) are declared
in the public libvmi header, which is not among the driver sources. They are
distinct constants (they label the cases of one `switch`). The enumeration
has the identifiers that the embedded code names, and `OTHER` for every
other identifier. -/
inductive reg_t
  | CR0
  | CR3
  | CR4
  | MSR_EFER
  | MSR_STAR
  | MSR_LSTAR
  | MSR_CSTAR
  | MSR_SYSCALL_MASK
  | MSR_SHADOW_GS_BASE
  | MSR_TSC_AUX
  | MSR_MTRRfix64K_00000
  | MSR_MTRRfix16K_80000
  | MSR_MTRRfix16K_A0000
  | MSR_MTRRfix4K_C0000
  | MSR_MTRRfix4K_C8000
  | MSR_MTRRfix4K_D0000
  | MSR_MTRRfix4K_D8000
  | MSR_MTRRfix4K_E0000
  | MSR_MTRRfix4K_E8000
  | MSR_MTRRfix4K_F0000
  | MSR_MTRRfix4K_F8000
  | MSR_MTRRdefType
  | MSR_IA32_MC0_CTL
  | MSR_IA32_MC0_STATUS
  | MSR_IA32_MC0_ADDR
  | MSR_IA32_MC0_MISC
  | MSR_IA32_MC1_CTL
  | MSR_IA32_MC0_CTL2
  | MSR_AMD_PATCHLEVEL
  | MSR_AMD64_TSC_RATIO
  | MSR_IA32_P5_MC_ADDR
  | MSR_IA32_P5_MC_TYPE
  | MSR_IA32_TSC
  | MSR_IA32_PLATFORM_ID
  | MSR_IA32_EBL_CR_POWERON
  | MSR_IA32_EBC_FREQUENCY_ID
  | MSR_IA32_FEATURE_CONTROL
  | MSR_IA32_SYSENTER_CS
  | MSR_IA32_SYSENTER_ESP
  | MSR_IA32_SYSENTER_EIP
  | MSR_IA32_MISC_ENABLE
  | MSR_HYPERVISOR
  | OTHER (id : Nat)
  deriving DecidableEq, Repr

open reg_t

/-- Source function `translate_msr_index`: the hardware index of a
model-specific register and the value stored in `*err`. -/
def translate_msr_index : reg_t → Nat × Int
  | MSR_EFER => (0xc0000080, 0)
  | MSR_STAR => (0xc0000081, 0)
  | MSR_LSTAR => (0xc0000082, 0)
  | MSR_CSTAR => (0xc0000083, 0)
  | MSR_SYSCALL_MASK => (0xc0000084, 0)
  | MSR_SHADOW_GS_BASE => (0xc0000102, 0)
  | MSR_TSC_AUX => (0xc0000103, 0)
  | MSR_MTRRfix64K_00000 => (0x00000250, 0)
  | MSR_MTRRfix16K_80000 => (0x00000258, 0)
  | MSR_MTRRfix16K_A0000 => (0x00000259, 0)
  | MSR_MTRRfix4K_C0000 => (0x00000268, 0)
  | MSR_MTRRfix4K_C8000 => (0x00000269, 0)
  | MSR_MTRRfix4K_D0000 => (0x0000026a, 0)
  | MSR_MTRRfix4K_D8000 => (0x0000026b, 0)
  | MSR_MTRRfix4K_E0000 => (0x0000026c, 0)
  | MSR_MTRRfix4K_E8000 => (0x0000026d, 0)
  | MSR_MTRRfix4K_F0000 => (0x0000026e, 0)
  | MSR_MTRRfix4K_F8000 => (0x0000026f, 0)
  | MSR_MTRRdefType => (0x000002ff, 0)
  | MSR_IA32_MC0_CTL => (0x00000400, 0)
  | MSR_IA32_MC0_STATUS => (0x00000401, 0)
  | MSR_IA32_MC0_ADDR => (0x00000402, 0)
  | MSR_IA32_MC0_MISC => (0x00000403, 0)
  | MSR_IA32_MC1_CTL => (0x00000404, 0)
  | MSR_IA32_MC0_CTL2 => (0x00000280, 0)
  | MSR_AMD_PATCHLEVEL => (0x0000008b, 0)
  | MSR_AMD64_TSC_RATIO => (0xc0000104, 0)
  | MSR_IA32_P5_MC_ADDR => (0x00000000, 0)
  | MSR_IA32_P5_MC_TYPE => (0x00000001, 0)
  | MSR_IA32_TSC => (0x00000010, 0)
  | MSR_IA32_PLATFORM_ID => (0x00000017, 0)
  | MSR_IA32_EBL_CR_POWERON => (0x0000002a, 0)
  | MSR_IA32_EBC_FREQUENCY_ID => (0x0000002c, 0)
  | MSR_IA32_FEATURE_CONTROL => (0x0000003a, 0)
  | MSR_IA32_SYSENTER_CS => (0x00000174, 0)
  | MSR_IA32_SYSENTER_ESP => (0x00000175, 0)
  | MSR_IA32_SYSENTER_EIP => (0x00000176, 0)
  | MSR_IA32_MISC_ENABLE => (0x000001a0, 0)
  | MSR_HYPERVISOR => (0x40000000, 0)
  | _ => (0, 1)

/-- The indices that `get_kvmi_registers` stores in `msrs.entries`, with
the `err` of each translation. -/
def get_kvmi_registers_entries : List (Nat × Int) :=
  [translate_msr_index MSR_EFER, translate_msr_index MSR_STAR]

/-- The indices that `kvm_get_vcpuregs` stores in `msrs.entries`, with the
`err` of each translation. -/
def kvm_get_vcpuregs_entries : List (Nat × Int) :=
  [translate_msr_index MSR_IA32_SYSENTER_CS, translate_msr_index MSR_IA32_SYSENTER_ESP,
   translate_msr_index MSR_IA32_SYSENTER_EIP, translate_msr_index MSR_EFER,
   translate_msr_index MSR_STAR, translate_msr_index MSR_LSTAR]

/-- The `switch (event->reg)` of `kvm_set_reg_access`: the event flags and
the register number `kvmi_reg` handed to the transport, or `none` in the
`default` case. -/
def set_reg_access_check_reg (K : KvmiConsts) : reg_t → Option (Nat × Nat)
  | CR0 => some (0 ||| K.KVMI_EVENT_CR_FLAG, 0)
  | CR3 => some (0 ||| K.KVMI_EVENT_CR_FLAG, 3)
  | CR4 => some (0 ||| K.KVMI_EVENT_CR_FLAG, 4)
  | MSR_STAR => some (0 ||| K.KVMI_EVENT_MSR_FLAG, 0xc0000081)
  | _ => none

/-! ## Connection manager -/

/-- What happens to domain handles; a handle is a number. -/
inductive ConnEffect
  /-- The accept thread enters `cb_kvmi_connect` with a new handle. -/
  | connect (dom : Nat)
  /-- A handle is closed (`kvmi_domain_close` on a handle that is not null). -/
  | domain_close (dom : Nat)
  /-- The accept thread is stopped (`kvmi_uninit`). -/
  | uninit
  deriving DecidableEq, Repr

/-- The connection fields of `kvm_instance_t` and what the connection
manager sees of the transport: is the accept thread running, and what was
done to the handles so far. The caller thread and the accept thread are
interleaved: a step of one of them is one function applied to this state. -/
structure kvm_connection where
  /-- Is `kvm->kvmi` set? -/
  kvmi : Bool
  /-- Field `kvm->kvmi_dom`, `none` for `NULL`. -/
  kvmi_dom : Option Nat
  /-- Is the accept thread of the transport running? -/
  accepting : Bool
  /-- The effects on the handles so far, oldest first. -/
  trace : List ConnEffect

/-- Modelled from the spec: close-connection. Closing `NULL` does nothing. -/
def kvmi_domain_close (c : kvm_connection) : Option Nat → kvm_connection
  | none => c
  | some dom => { c with trace := c.trace ++ [.domain_close dom] }

/-- Modelled from the spec: `kvmi_uninit` stops the accept thread; when it
returns, the accept callback cannot run any more. -/
def kvmi_uninit (c : kvm_connection) : kvm_connection :=
  { c with accepting := false, trace := c.trace ++ [.uninit] }

/-- Source function `cb_kvmi_connect`, the accept callback, run by the
accept thread under the connection mutex. -/
def cb_kvmi_connect (c : kvm_connection) (dom : Nat) : kvm_connection :=
  let c := { c with trace := c.trace ++ [.connect dom] }
  let c := kvmi_domain_close c c.kvmi_dom
  { c with kvmi_dom := some dom }

/-- The accept thread hands over the handles of a list, one callback each,
as long as it runs. -/
def accept_all (c : kvm_connection) (doms : List Nat) : kvm_connection :=
  doms.foldl (fun c dom => if c.accepting then cb_kvmi_connect c dom else c) c

/-- The start of `init_kvmi`, up to `kvmi_init_unix_socket`: the stored
handle is set to `NULL` and, if the socket can be set up, the accept thread
starts. -/
def init_kvmi_start (c : kvm_connection) (socket_ok : Bool) : kvm_connection :=
  { c with kvmi_dom := none, kvmi := socket_ok, accepting := c.accepting || socket_ok }

/-- The `if (err)` block of `init_kvmi`. -/
def init_kvmi_failure_exit (c : kvm_connection) : kvm_connection :=
  let c := kvmi_uninit c
  let c := { c with kvmi := false }
  -- From this point, kvm->kvmi_dom won't be touched.
  kvmi_domain_close c c.kvmi_dom

/-- Source function `init_kvmi`. The environment decides whether the socket
can be set up, whether `gettimeofday` succeeds, which handles the accept
thread hands over while the caller waits on the condition variable
(`during`), what `pthread_cond_timedwait` returns, and which handles the
accept thread hands over after the mutex is unlocked and before it is
stopped (`late`). -/
def init_kvmi (c : kvm_connection) (socket_ok gettimeofday_ok : Bool) (during : List Nat)
    (timedwait : Int) (late : List Nat) : Bool × kvm_connection :=
  let c := init_kvmi_start c socket_ok
  let waited := socket_ok && gettimeofday_ok
  let c := if waited then accept_all c during else c
  let err : Int := if waited then timedwait else -1
  if err ≠ 0 then (false, init_kvmi_failure_exit (accept_all c late))
  else (true, c)

/-- The connection part of the source function `kvm_destroy`. -/
def kvm_destroy (c : kvm_connection) : kvm_connection :=
  let c := kvmi_uninit c
  let c := { c with kvmi := false }
  let c := kvmi_domain_close c c.kvmi_dom
  { c with kvmi_dom := none }

/-! ## Vocabulary of the properties -/

/-- The requested values that the `switch` of `kvm_set_mem_access` knows. -/
def recognised_access : List Nat :=
  [VMI_MEMACCESS_N, VMI_MEMACCESS_R, VMI_MEMACCESS_W, VMI_MEMACCESS_X,
   VMI_MEMACCESS_RW, VMI_MEMACCESS_WX, VMI_MEMACCESS_RWX]

/-- The number of requests that enabling page-fault events takes at the
start of the next `kvm_set_mem_access`: one per VCPU while the latch is
unset, none once it is set. -/
def arming_requests (vmi : vmi_instance) : Nat :=
  if vmi.pf_enabled then 0 else vmi.num_vcpus

/-- Is the effect a control-events request? -/
def Effect.is_control_events : Effect → Bool
  | .control_events _ _ => true
  | _ => false

/-- Is the effect a set-page-access request? -/
def Effect.is_set_page_access : Effect → Bool
  | .set_page_access _ _ _ => true
  | _ => false

/-- Is the effect a get-page-access or a set-page-access request? -/
def Effect.is_page_access : Effect → Bool
  | .get_page_access _ _ => true
  | .set_page_access _ _ _ => true
  | _ => false

/-- The trace of `d2` is the trace of `d1` followed by effects that all
satisfy `P`. -/
def TraceExt (P : Effect → Prop) (d1 d2 : KvmiDom) : Prop :=
  ∃ added : List Effect, d2.trace = d1.trace ++ added ∧ ∀ e ∈ added, P e

/-- The control-events requests of one pass over the VCPUs `0 .. n-1`. -/
def control_pass (n flags : Nat) : List Effect :=
  (List.range n).map (fun vcpu => Effect.control_events vcpu flags)

/-- The control-events requests of `n` VCPUs in a row, from `vcpu` on. -/
def control_from : Nat → Nat → Nat → List Effect
  | 0, _, _ => []
  | n + 1, vcpu, flags => .control_events vcpu flags :: control_from n (vcpu + 1) flags

/-- The set-page-access requests of one pass over the VCPUs `0 .. n-1`. -/
def set_pass (n gpa access : Nat) : List Effect :=
  (List.range n).map (fun vcpu => Effect.set_page_access vcpu gpa access)

/-- The set-page-access requests of `n` VCPUs in a row, from `vcpu` on. -/
def set_from : Nat → Nat → Nat → Nat → List Effect
  | 0, _, _, _ => []
  | n + 1, vcpu, gpa, access =>
    .set_page_access vcpu gpa access :: set_from n (vcpu + 1) gpa access

/-- The flags of the last control-events request that a trace holds for a
VCPU, if it holds one. -/
def last_control_flags (trace : List Effect) (vcpu : Nat) : Option Nat :=
  trace.foldl
    (fun acc e =>
      match e with
      | .control_events v flags => if v = vcpu then some flags else acc
      | _ => acc)
    none

/-- The address that `kvm_set_mem_access` computes for a frame. -/
def gpa_of (gpfn : Nat) : Nat := (gpfn <<< 12) % 18446744073709551616

/-- A sequence of calls of `kvm_set_mem_access`, one per pair of a frame
and a requested mask; the states after each call chain up. -/
def set_mem_access_calls (K : KvmiConsts) : vmi_instance → List (Nat × Nat) → vmi_instance
  | vmi, [] => vmi
  | vmi, (gpfn, page_access_flag) :: rest =>
    set_mem_access_calls K (kvm_set_mem_access K vmi gpfn page_access_flag).2 rest

/-- What one drained pause confirmation leaves in the trace. -/
def drain_effects (K : KvmiConsts) (ev : kvmi_dom_event) : List Effect :=
  [.wait_event 1000, .pop_event,
   .reply_event ev.seq K.KVMI_EVENT_ACTION_CONTINUE ev.event, .free ev]

/-- The state in which the loop of `kvm_resume_vm` stands after `j` pause
confirmations went through: the counter is `j` lower, the first `j` events
of the queue are gone, three requests per event (wait, pop, reply) are
taken from the script, and the trace has the effects of each event. -/
def after_confirmations (K : KvmiConsts) (vmi : vmi_instance) (j : Nat) : vmi_instance :=
  { vmi with
    expected_pause_count := vmi.expected_pause_count - j
    kvmi_dom := { vmi.kvmi_dom with
      queue := vmi.kvmi_dom.queue.drop j
      script := fun i => vmi.kvmi_dom.script (i + 3 * j)
      trace := vmi.kvmi_dom.trace ++ (vmi.kvmi_dom.queue.take j).flatMap (drain_effects K) } }

/-- A call of one of the three entry points that touch the pause counter or
the event queue. -/
inductive DriverCall
  | pause
  | resume
  | listen (timeout : Nat)
  deriving DecidableEq, Repr

/-- The state after one call, on a driver initialised with `init_flags`. -/
def driver_call (K : KvmiConsts) (init_flags : Nat) (vmi : vmi_instance) :
    DriverCall → Option vmi_instance
  | .pause => some (kvm_pause_vm vmi).2
  | .resume => (kvm_resume_vm K vmi).map Prod.snd
  | .listen timeout =>
    some (kvm_events_listen K (kvm_init_vmi_process_event K init_flags) vmi timeout).2

/-- The state after a sequence of calls. -/
def driver_calls (K : KvmiConsts) (init_flags : Nat) :
    vmi_instance → List DriverCall → Option vmi_instance
  | vmi, [] => some vmi
  | vmi, call :: rest =>
    (driver_call K init_flags vmi call).bind (fun vmi' => driver_calls K init_flags vmi' rest)

/-- The transport state right after a successful wait and a successful pop
of the first event of the queue. -/
def popped (d : KvmiDom) (timeout : Nat) : KvmiDom :=
  { d with
    queue := d.queue.tail
    script := fun i => d.script (i + 2)
    trace := d.trace ++ [.wait_event timeout, .pop_event] }

/-- A connection step of the caller thread or of the accept thread. -/
inductive ConnStep
  /-- The caller enters `init_kvmi`; the flag says whether the socket can be
  set up. -/
  | init_start (socket_ok : Bool)
  /-- The accept thread runs `cb_kvmi_connect` with a handle; it can only do
  so while it runs. -/
  | accept (dom : Nat)
  /-- The caller leaves `init_kvmi` through the `if (err)` block. -/
  | timeout_exit
  /-- The caller runs `kvm_destroy`. -/
  | destroy
  deriving DecidableEq, Repr

/-- One connection step. -/
def conn_step (c : kvm_connection) : ConnStep → kvm_connection
  | .init_start socket_ok => init_kvmi_start c socket_ok
  | .accept dom => if c.accepting then cb_kvmi_connect c dom else c
  | .timeout_exit => init_kvmi_failure_exit c
  | .destroy => kvm_destroy c

/-- A sequence of connection steps. -/
def conn_run (c : kvm_connection) (steps : List ConnStep) : kvm_connection :=
  steps.foldl conn_step c

/-- The handles closed so far, one entry per close. -/
def closed_handles (trace : List ConnEffect) : List Nat :=
  trace.filterMap (fun e => match e with | .domain_close dom => some dom | _ => none)

/-- The handles that the accept callback received so far. -/
def received_handles (trace : List ConnEffect) : List Nat :=
  trace.filterMap (fun e => match e with | .connect dom => some dom | _ => none)

/-- The Domain Handle invariant in the words of the specification: the
stored handle is not null only if it is still open, every handle that the
accept callback received is the stored one or has been closed, and no
handle is closed twice. -/
def handle_invariant (c : kvm_connection) : Prop :=
  (∀ dom ∈ c.kvmi_dom, dom ∉ closed_handles c.trace) ∧
  (∀ dom ∈ received_handles c.trace,
    c.kvmi_dom = some dom ∨ dom ∈ closed_handles c.trace) ∧
  (closed_handles c.trace).Nodup

/-- The connection at the moment the caller of `init_kvmi` reaches
`kvmi_uninit` on the failure path: after the start, the handles accepted
during the wait (if the caller waited at all) and the late ones. -/
def before_uninit (c : kvm_connection) (socket_ok gettimeofday_ok : Bool)
    (during late : List Nat) : kvm_connection :=
  accept_all
    (if socket_ok && gettimeofday_ok then accept_all (init_kvmi_start c socket_ok) during
     else init_kvmi_start c socket_ok)
    late

/-- What the accept callbacks add to the trace when the accept thread hands
over the handles of a list, one callback each, and `stored` is the stored
handle before the first of them: each callback logs the new handle and
closes the handle that it replaces. -/
def callback_effects : Option Nat → List Nat → List ConnEffect
  | _, [] => []
  | stored, dom :: rest =>
    ConnEffect.connect dom ::
      (stored.toList.map ConnEffect.domain_close ++ callback_effects (some dom) rest)

/-- The handles for which the accept callback runs in a call of `init_kvmi`
that leaves through the `if (err)` block, oldest first: none if the accept
thread does not run; otherwise those handed over during the wait (if the
caller waited at all) and then the late ones. -/
def accepted_handles (c : kvm_connection) (socket_ok gettimeofday_ok : Bool)
    (during late : List Nat) : List Nat :=
  if c.accepting || socket_ok then
    (if socket_ok && gettimeofday_ok then during else []) ++ late
  else []

/-- A connection on which nothing happened yet (the instance comes out of
`g_malloc0`). -/
def fresh_connection : kvm_connection :=
  { kvmi := false, kvmi_dom := none, accepting := false, trace := [] }

/-! ## Example states -/

/-- An event that carries nothing but its sequence number, type and VCPU. -/
def exampleEvent (seq event vcpu : Nat) : kvmi_dom_event :=
  { seq := seq, event := event, vcpu := vcpu }

/-- A page-fault event: a write to the address 0x5123, in frame 5. -/
def examplePageFault : kvmi_dom_event :=
  { seq := 31, event := 6, vcpu := 1, page_fault_gva := 0x7f005123,
    page_fault_gpa := 0x5123, page_fault_mode := KVMI_PAGE_ACCESS_W }

/-- A page-fault event: an instruction fetch at the address 0x5123, in
frame 5. -/
def exampleExecFault : kvmi_dom_event :=
  { seq := 32, event := 6, vcpu := 2, page_fault_gva := 0x7f005123,
    page_fault_gpa := 0x5123, page_fault_mode := KVMI_PAGE_ACCESS_X }

/-- Watchers: an exact-frame watcher on frame 5 that asks for execute
accesses, and three generic watchers for write, execute and read-write
accesses. The callbacks are numbered 1 to 4. -/
def exampleWatchers (vmi : vmi_instance) : vmi_instance :=
  { vmi with
    mem_events_on_gfn := [(5, { callback := 1, mem_event := { in_access := VMI_MEMACCESS_X } })]
    mem_events_generic :=
      [(VMI_MEMACCESS_W, { callback := 2, mem_event := { in_access := VMI_MEMACCESS_W } }),
       (VMI_MEMACCESS_X, { callback := 3, mem_event := { in_access := VMI_MEMACCESS_X } }),
       (VMI_MEMACCESS_RW, { callback := 4, mem_event := { in_access := VMI_MEMACCESS_RW } })] }

/-- Example constants. -/
def exampleConsts : KvmiConsts :=
  { KVMI_EVENT_PAUSE_VCPU := 10, KVMI_EVENT_PF_FLAG := 64, KVMI_EVENT_ACTION_CONTINUE := 0,
    KVMI_EVENT_CR := 1, KVMI_EVENT_BREAKPOINT := 4, KVMI_EVENT_PF := 6, KVMI_NUM_EVENTS := 11,
    KVMI_EVENT_CR_FLAG := 2, KVMI_EVENT_MSR_FLAG := 4 }

/-- A transport with four VCPUs, every page readable, writable and
executable, whose requests fail as `script` says. -/
def exampleDom (script : Nat → Nat) (queue : List kvmi_dom_event) : KvmiDom :=
  { vcpu_count := 4, page_access := fun _ _ => 7, queue := queue,
    script := script, errno := 0, trace := [] }

/-- A driver with four VCPUs on `exampleDom`. -/
def exampleVmi (pf_enabled : Bool) (count : Nat) (script : Nat → Nat)
    (queue : List kvmi_dom_event) : vmi_instance :=
  { num_vcpus := 4, expected_pause_count := count, pf_enabled := pf_enabled,
    kvmi_dom := exampleDom script queue }

/-! # Properties -/

/-! ## The transport requests, one by one -/

theorem TraceExt.refl (P : Effect → Prop) (d : KvmiDom) : TraceExt P d d :=
  ⟨[], by simp, by simp⟩

theorem TraceExt.trans {P : Effect → Prop} {d1 d2 d3 : KvmiDom}
    (h12 : TraceExt P d1 d2) (h23 : TraceExt P d2 d3) : TraceExt P d1 d3 := by
  obtain ⟨a, ha, hPa⟩ := h12
  obtain ⟨b, hb, hPb⟩ := h23
  refine ⟨a ++ b, by rw [hb, ha, List.append_assoc], ?_⟩
  intro e he
  rcases List.mem_append.mp he with h | h
  · exact hPa e h
  · exact hPb e h

theorem TraceExt.mono {P Q : Effect → Prop} {d1 d2 : KvmiDom}
    (hPQ : ∀ e, P e → Q e) (h : TraceExt P d1 d2) : TraceExt Q d1 d2 := by
  obtain ⟨a, ha, hPa⟩ := h
  exact ⟨a, ha, fun e he => hPQ e (hPa e he)⟩

theorem traceExt_request (P : Effect → Prop) (d : KvmiDom) (e : Effect) (h : P e) :
    TraceExt P d (d.request e) :=
  ⟨[e], rfl, by simpa using h⟩

theorem control_events_traceExt (d : KvmiDom) (vcpu flags : Nat) :
    TraceExt (fun e => e.is_control_events = true) d (kvmi_control_events d vcpu flags).2 := by
  unfold kvmi_control_events
  split_ifs <;> exact traceExt_request _ _ _ rfl

theorem control_events_page_access (d : KvmiDom) (vcpu flags : Nat) :
    (kvmi_control_events d vcpu flags).2.page_access = d.page_access := by
  unfold kvmi_control_events
  split_ifs <;> rfl

theorem get_page_access_traceExt (d : KvmiDom) (vcpu gpa : Nat) :
    TraceExt (fun e => e = .get_page_access vcpu gpa) d (kvmi_get_page_access d vcpu gpa).2.2 := by
  unfold kvmi_get_page_access
  split_ifs <;> exact traceExt_request _ _ _ rfl

theorem get_page_access_page_access (d : KvmiDom) (vcpu gpa : Nat) :
    (kvmi_get_page_access d vcpu gpa).2.2.page_access = d.page_access := by
  unfold kvmi_get_page_access
  split_ifs <;> rfl

theorem set_page_access_traceExt (d : KvmiDom) (vcpu gpa access : Nat) :
    TraceExt (fun e => e.is_set_page_access = true) d
      (kvmi_set_page_access d vcpu gpa access).2 := by
  unfold kvmi_set_page_access
  split_ifs
  · exact ⟨[.set_page_access vcpu gpa access], rfl, by simp [Effect.is_set_page_access]⟩
  · exact traceExt_request _ _ _ rfl

/-! ## The loops over the VCPUs -/

theorem pf_enable_loop_traceExt (K : KvmiConsts) (n : Nat) :
    ∀ (vcpu : Nat) (d : KvmiDom),
      TraceExt (fun e => e.is_control_events = true) d (pf_enable_loop K n vcpu d).2 := by
  induction n with
  | zero => intro vcpu d; exact TraceExt.refl _ _
  | succ n ih =>
    intro vcpu d
    have h1 := control_events_traceExt d vcpu K.KVMI_EVENT_PF_FLAG
    simp only [pf_enable_loop]
    split_ifs
    · exact h1
    · exact h1.trans (ih _ _)

theorem pf_enable_loop_page_access (K : KvmiConsts) (n : Nat) :
    ∀ (vcpu : Nat) (d : KvmiDom),
      (pf_enable_loop K n vcpu d).2.page_access = d.page_access := by
  induction n with
  | zero => intro vcpu d; rfl
  | succ n ih =>
    intro vcpu d
    have h1 := control_events_page_access d vcpu K.KVMI_EVENT_PF_FLAG
    simp only [pf_enable_loop]
    split_ifs
    · exact h1
    · rw [ih, h1]

theorem pf_disable_loop_traceExt (n : Nat) :
    ∀ (vcpu : Nat) (d : KvmiDom),
      TraceExt (fun e => e.is_control_events = true) d (pf_disable_loop n vcpu d) := by
  induction n with
  | zero => intro vcpu d; exact TraceExt.refl _ _
  | succ n ih =>
    intro vcpu d
    simp only [pf_disable_loop]
    exact (control_events_traceExt d vcpu 0).trans (ih _ _)

theorem pf_disable_loop_page_access (n : Nat) :
    ∀ (vcpu : Nat) (d : KvmiDom), (pf_disable_loop n vcpu d).page_access = d.page_access := by
  induction n with
  | zero => intro vcpu d; rfl
  | succ n ih =>
    intro vcpu d
    simp only [pf_disable_loop]
    rw [ih, control_events_page_access]

theorem set_page_access_loop_traceExt (n : Nat) :
    ∀ (vcpu : Nat) (d : KvmiDom) (gpa access : Nat),
      TraceExt (fun e => e.is_set_page_access = true) d
        (set_page_access_loop n vcpu d gpa access).2 := by
  induction n with
  | zero => intro vcpu d gpa access; exact TraceExt.refl _ _
  | succ n ih =>
    intro vcpu d gpa access
    have h1 := set_page_access_traceExt d vcpu gpa access
    simp only [set_page_access_loop]
    split_ifs
    · exact h1
    · exact h1.trans (ih _ _ _ _)

theorem restore_page_access_loop_traceExt (n : Nat) :
    ∀ (vcpu : Nat) (d : KvmiDom) (gpa access : Nat),
      TraceExt (fun e => e.is_set_page_access = true) d
        (restore_page_access_loop n vcpu d gpa access) := by
  induction n with
  | zero => intro vcpu d gpa access; exact TraceExt.refl _ _
  | succ n ih =>
    intro vcpu d gpa access
    simp only [restore_page_access_loop]
    exact (set_page_access_traceExt d vcpu gpa access).trans (ih _ _ _ _)

/-! ## The conversion of the requested mask -/

theorem convert_access_none (page_access_flag orig : Nat)
    (h : page_access_flag ∉ recognised_access) : convert_access page_access_flag orig = none := by
  simp only [recognised_access, List.mem_cons, List.mem_singleton, not_or, List.mem_nil_iff,
    or_false] at h
  obtain ⟨h1, h2, h3, h4, h5, h6, h7⟩ := h
  simp [convert_access, h1, h2, h3, h4, h5, h6, h7]

theorem kvm_set_mem_access_latched (K : KvmiConsts) (vmi : vmi_instance)
    (gpfn page_access_flag : Nat) (hpf : vmi.pf_enabled = true) :
    kvm_set_mem_access K vmi gpfn page_access_flag
      = set_mem_access_body vmi gpfn page_access_flag := by
  simp [kvm_set_mem_access, hpf]

theorem kvm_set_mem_access_arm_failed (K : KvmiConsts) (vmi : vmi_instance)
    (gpfn page_access_flag : Nat) (hpf : vmi.pf_enabled = false)
    (ha : (pf_enable_loop K vmi.num_vcpus 0 vmi.kvmi_dom).1 = false) :
    kvm_set_mem_access K vmi gpfn page_access_flag
      = (VMI_FAILURE,
          { vmi with
            kvmi_dom := pf_disable_loop vmi.num_vcpus 0
              (pf_enable_loop K vmi.num_vcpus 0 vmi.kvmi_dom).2 }) := by
  simp [kvm_set_mem_access, hpf, ha]

theorem kvm_set_mem_access_armed (K : KvmiConsts) (vmi : vmi_instance)
    (gpfn page_access_flag : Nat) (hpf : vmi.pf_enabled = false)
    (ha : (pf_enable_loop K vmi.num_vcpus 0 vmi.kvmi_dom).1 = true) :
    kvm_set_mem_access K vmi gpfn page_access_flag
      = set_mem_access_body
          { vmi with pf_enabled := true,
                     kvmi_dom := (pf_enable_loop K vmi.num_vcpus 0 vmi.kvmi_dom).2 }
          gpfn page_access_flag := by
  simp [kvm_set_mem_access, hpf, ha]

/-! ## Unrecognised requests -/

theorem set_mem_access_body_unrecognised (vmi : vmi_instance) (gpfn page_access_flag : Nat)
    (h : page_access_flag ∉ recognised_access) :
    (set_mem_access_body vmi gpfn page_access_flag).1 = VMI_FAILURE ∧
    TraceExt (fun e => e.is_set_page_access = false) vmi.kvmi_dom
      (set_mem_access_body vmi gpfn page_access_flag).2.kvmi_dom ∧
    (set_mem_access_body vmi gpfn page_access_flag).2.kvmi_dom.page_access
      = vmi.kvmi_dom.page_access ∧
    (set_mem_access_body vmi gpfn page_access_flag).2.pf_enabled = vmi.pf_enabled := by
  have ht : TraceExt (fun e => e.is_set_page_access = false) vmi.kvmi_dom
      (kvmi_get_page_access vmi.kvmi_dom 0 gpfn).2.2 :=
    (get_page_access_traceExt vmi.kvmi_dom 0 gpfn).mono (by rintro e rfl; rfl)
  have hp := get_page_access_page_access vmi.kvmi_dom 0 gpfn
  unfold set_mem_access_body
  simp only []
  split_ifs
  · exact ⟨rfl, ht, hp, rfl⟩
  · split
    · exact ⟨rfl, ht, hp, rfl⟩
    · rw [convert_access_none _ _ h]
      exact ⟨rfl, ht, hp, rfl⟩

/-- C6: a requested mask that is none of N, R, W, X, RW, WX, RWX makes
`kvm_set_mem_access` return `VMI_FAILURE`; the call issues no
set-page-access request (everything it adds to the trace is another kind of
effect) and the page-access store of every VCPU is left as it was. -/
theorem set_mem_access_rejects_unrecognised (K : KvmiConsts) (vmi : vmi_instance)
    (gpfn page_access_flag : Nat) (h : page_access_flag ∉ recognised_access) :
    (kvm_set_mem_access K vmi gpfn page_access_flag).1 = VMI_FAILURE ∧
    (∃ added : List Effect,
      (kvm_set_mem_access K vmi gpfn page_access_flag).2.kvmi_dom.trace
        = vmi.kvmi_dom.trace ++ added ∧
      ∀ e ∈ added, e.is_set_page_access = false) ∧
    (kvm_set_mem_access K vmi gpfn page_access_flag).2.kvmi_dom.page_access
      = vmi.kvmi_dom.page_access := by
  have hce : ∀ e : Effect, e.is_control_events = true → e.is_set_page_access = false := by
    intro e he
    cases e <;> simp_all [Effect.is_control_events, Effect.is_set_page_access]
  cases hpf : vmi.pf_enabled with
  | true =>
    rw [kvm_set_mem_access_latched K vmi gpfn page_access_flag hpf]
    obtain ⟨h1, h2, h3, -⟩ := set_mem_access_body_unrecognised vmi gpfn page_access_flag h
    exact ⟨h1, h2, h3⟩
  | false =>
    cases ha : (pf_enable_loop K vmi.num_vcpus 0 vmi.kvmi_dom).1 with
    | false =>
      rw [kvm_set_mem_access_arm_failed K vmi gpfn page_access_flag hpf ha]
      refine ⟨rfl, ?_, ?_⟩
      · exact ((pf_enable_loop_traceExt K _ 0 vmi.kvmi_dom).trans
          (pf_disable_loop_traceExt _ 0 _)).mono hce
      · simp only [pf_disable_loop_page_access, pf_enable_loop_page_access]
    | true =>
      rw [kvm_set_mem_access_armed K vmi gpfn page_access_flag hpf ha]
      obtain ⟨h1, h2, h3, -⟩ := set_mem_access_body_unrecognised
        { vmi with pf_enabled := true,
                   kvmi_dom := (pf_enable_loop K vmi.num_vcpus 0 vmi.kvmi_dom).2 }
        gpfn page_access_flag h
      refine ⟨h1, ?_, ?_⟩
      · exact ((pf_enable_loop_traceExt K _ 0 vmi.kvmi_dom).mono hce).trans h2
      · rw [h3]
        exact pf_enable_loop_page_access K _ 0 vmi.kvmi_dom

/-- C6, at concrete inputs: the requests RX, W2X, RWX2N and the invalid
value 0 are not recognised, and each of them fails on a fresh four-VCPU
driver. -/
theorem set_mem_access_rejects_unrecognised_witness :
    (VMI_MEMACCESS_RX ∉ recognised_access ∧ VMI_MEMACCESS_W2X ∉ recognised_access ∧
      VMI_MEMACCESS_RWX2N ∉ recognised_access ∧ VMI_MEMACCESS_INVALID ∉ recognised_access) ∧
    (kvm_set_mem_access exampleConsts (exampleVmi false 0 (fun _ => 0) []) 0x1000
      VMI_MEMACCESS_RX).1 = VMI_FAILURE ∧
    (kvm_set_mem_access exampleConsts (exampleVmi false 0 (fun _ => 0) []) 0x1000
      VMI_MEMACCESS_W2X).1 = VMI_FAILURE ∧
    (kvm_set_mem_access exampleConsts (exampleVmi false 0 (fun _ => 0) []) 0x1000
      VMI_MEMACCESS_RWX2N).1 = VMI_FAILURE ∧
    (kvm_set_mem_access exampleConsts (exampleVmi false 0 (fun _ => 0) []) 0x1000
      VMI_MEMACCESS_INVALID).1 = VMI_FAILURE :=
  ⟨by decide,
   (set_mem_access_rejects_unrecognised exampleConsts (exampleVmi false 0 (fun _ => 0) [])
      0x1000 VMI_MEMACCESS_RX (by decide)).1,
   (set_mem_access_rejects_unrecognised exampleConsts (exampleVmi false 0 (fun _ => 0) [])
      0x1000 VMI_MEMACCESS_W2X (by decide)).1,
   (set_mem_access_rejects_unrecognised exampleConsts (exampleVmi false 0 (fun _ => 0) [])
      0x1000 VMI_MEMACCESS_RWX2N (by decide)).1,
   (set_mem_access_rejects_unrecognised exampleConsts (exampleVmi false 0 (fun _ => 0) [])
      0x1000 VMI_MEMACCESS_INVALID (by decide)).1⟩

/-! ## The computed native mask -/

/-- C10: `kvm_pause_vm` is idempotent while paused. In a state with
`expected_pause_count > 0` it returns `VMI_SUCCESS` and leaves the whole
state as it was: no request reaches the transport and the counter keeps its
value. So when a first `kvm_pause_vm` from the running state succeeds with
the transport reporting `N > 0` VCPUs, a second one right after it leaves
the counter at `N`. -/
theorem pause_vm_idempotent (vmi : vmi_instance) :
    (0 < vmi.expected_pause_count → kvm_pause_vm vmi = (VMI_SUCCESS, vmi)) ∧
    (vmi.expected_pause_count = 0 → vmi.kvmi_dom.script 0 = 0 → 0 < vmi.kvmi_dom.vcpu_count →
      (kvm_pause_vm vmi).1 = VMI_SUCCESS ∧
      (kvm_pause_vm vmi).2.expected_pause_count = vmi.kvmi_dom.vcpu_count ∧
      kvm_pause_vm (kvm_pause_vm vmi).2 = (VMI_SUCCESS, (kvm_pause_vm vmi).2) ∧
      (kvm_pause_vm (kvm_pause_vm vmi).2).2.expected_pause_count = vmi.kvmi_dom.vcpu_count ∧
      (kvm_pause_vm (kvm_pause_vm vmi).2).2.kvmi_dom.trace
        = vmi.kvmi_dom.trace ++ [Effect.pause_all_vcpus]) := by
  have hpaused : ∀ v : vmi_instance, 0 < v.expected_pause_count →
      kvm_pause_vm v = (VMI_SUCCESS, v) := by
    intro v hv
    have : v.expected_pause_count ≠ 0 := by omega
    simp [kvm_pause_vm, this]
  refine ⟨hpaused vmi, ?_⟩
  intro h0 hs hN
  have h1 : kvm_pause_vm vmi = (VMI_SUCCESS,
      { vmi with expected_pause_count := vmi.kvmi_dom.vcpu_count,
                 kvmi_dom := vmi.kvmi_dom.request .pause_all_vcpus }) := by
    simp [kvm_pause_vm, h0, kvmi_pause_all_vcpus, hs]
  have h2 := hpaused (kvm_pause_vm vmi).2 (by rw [h1]; exact hN)
  refine ⟨by rw [h1], by rw [h1], h2, by rw [h2, h1], by rw [h2, h1]; rfl⟩

/-- C10, at concrete inputs: pausing a four-VCPU driver that already waits
for four confirmations changes nothing, and two pauses in a row from the
running state leave the counter at 4. -/
theorem pause_vm_idempotent_witness :
    kvm_pause_vm (exampleVmi false 4 (fun _ => 0) [])
      = (VMI_SUCCESS, exampleVmi false 4 (fun _ => 0) []) ∧
    (kvm_pause_vm (kvm_pause_vm (exampleVmi false 0 (fun _ => 0) [])).2).2.expected_pause_count
      = 4 :=
  ⟨(pause_vm_idempotent (exampleVmi false 4 (fun _ => 0) [])).1 (by decide),
   ((pause_vm_idempotent (exampleVmi false 0 (fun _ => 0) [])).2 rfl rfl
      (by decide)).2.2.2.1⟩

/-! ## The loops under a known script -/

theorem control_from_eq_map (flags : Nat) (n : Nat) :
    ∀ vcpu, control_from n vcpu flags
      = (List.range n).map (fun j => Effect.control_events (vcpu + j) flags) := by
  induction n with
  | zero => intro vcpu; rfl
  | succ n ih =>
    intro vcpu
    rw [control_from, ih, List.range_succ_eq_map, List.map_cons, List.map_map]
    simp only [Nat.add_zero, List.cons.injEq, true_and]
    apply List.map_congr_left
    intro j _
    simp only [Function.comp, Nat.succ_eq_add_one]
    congr 1
    omega

theorem control_from_zero (n flags : Nat) : control_from n 0 flags = control_pass n flags := by
  rw [control_from_eq_map, control_pass]
  simp

theorem set_from_eq_map (gpa access : Nat) (n : Nat) :
    ∀ vcpu, set_from n vcpu gpa access
      = (List.range n).map (fun j => Effect.set_page_access (vcpu + j) gpa access) := by
  induction n with
  | zero => intro vcpu; rfl
  | succ n ih =>
    intro vcpu
    rw [set_from, ih, List.range_succ_eq_map, List.map_cons, List.map_map]
    simp only [Nat.add_zero, List.cons.injEq, true_and]
    apply List.map_congr_left
    intro j _
    simp only [Function.comp, Nat.succ_eq_add_one]
    congr 1
    omega

theorem set_from_zero (n gpa access : Nat) : set_from n 0 gpa access = set_pass n gpa access := by
  rw [set_from_eq_map, set_pass]
  simp

theorem page_access_step (pa : Nat → Nat → Nat) (vcpu n gpa access : Nat) :
    (fun v g => if vcpu + 1 ≤ v ∧ v < vcpu + 1 + n ∧ g = gpa then access
      else if v = vcpu ∧ g = gpa then access else pa v g)
    = fun v g => if vcpu ≤ v ∧ v < vcpu + (n + 1) ∧ g = gpa then access else pa v g := by
  funext v g
  split_ifs <;> first | rfl | (exfalso; omega)

theorem page_access_none (pa : Nat → Nat → Nat) (vcpu gpa access : Nat) :
    (fun v g => if vcpu ≤ v ∧ v < vcpu ∧ g = gpa then access else pa v g) = pa := by
  funext v g
  split_ifs <;> first | rfl | (exfalso; omega)

theorem pf_enable_loop_ok (K : KvmiConsts) (n : Nat) :
    ∀ (vcpu : Nat) (d : KvmiDom), (∀ j < n, d.script j = 0) →
      pf_enable_loop K n vcpu d
        = (true, { d with
            script := fun i => d.script (i + n)
            trace := d.trace ++ control_from n vcpu K.KVMI_EVENT_PF_FLAG }) := by
  induction n with
  | zero => intro vcpu d _; simp [pf_enable_loop, control_from]
  | succ n ih =>
    intro vcpu d h
    have h0 : d.script 0 = 0 := h 0 (by omega)
    have hrest : ∀ j < n, (d.request (.control_events vcpu K.KVMI_EVENT_PF_FLAG)).script j = 0 := by
      intro j hj
      exact h (j + 1) (by omega)
    simp only [pf_enable_loop, kvmi_control_events, h0, if_true, ne_eq, not_true_eq_false,
      if_false]
    rw [ih _ _ hrest]
    simp only [KvmiDom.request, h0, if_true, control_from, List.append_assoc, List.singleton_append,
      Prod.mk.injEq, true_and, KvmiDom.mk.injEq, and_true]
    first | done | (funext i; rfl)

theorem pf_enable_loop_failed (K : KvmiConsts) (n : Nat) :
    ∀ (k vcpu : Nat) (d : KvmiDom), k < n → (∀ j < k, d.script j = 0) → d.script k ≠ 0 →
      pf_enable_loop K n vcpu d
        = (false, { d with
            script := fun i => d.script (i + (k + 1))
            errno := d.script k
            trace := d.trace ++ control_from (k + 1) vcpu K.KVMI_EVENT_PF_FLAG }) := by
  induction n with
  | zero => intro k vcpu d hk; omega
  | succ n ih =>
    intro k vcpu d hk hok hfail
    cases k with
    | zero =>
      simp [pf_enable_loop, kvmi_control_events, hfail, KvmiDom.request, control_from]
    | succ k =>
      have h0 : d.script 0 = 0 := hok 0 (by omega)
      have hrest : ∀ j < k,
          (d.request (.control_events vcpu K.KVMI_EVENT_PF_FLAG)).script j = 0 := by
        intro j hj
        exact hok (j + 1) (by omega)
      have hk' : (d.request (.control_events vcpu K.KVMI_EVENT_PF_FLAG)).script k ≠ 0 := hfail
      simp only [pf_enable_loop, kvmi_control_events, h0, if_true, ne_eq, not_true_eq_false,
        if_false]
      rw [ih k _ _ (by omega) hrest hk']
      simp only [KvmiDom.request, h0, if_true, control_from, List.append_assoc,
        List.singleton_append, Prod.mk.injEq, true_and, KvmiDom.mk.injEq, and_true]
      first | done | (funext i; rfl)

theorem control_events_trace (d : KvmiDom) (vcpu flags : Nat) :
    (kvmi_control_events d vcpu flags).2.trace = d.trace ++ [.control_events vcpu flags] := by
  unfold kvmi_control_events
  split_ifs <;> rfl

theorem pf_disable_loop_trace (n : Nat) :
    ∀ (vcpu : Nat) (d : KvmiDom),
      (pf_disable_loop n vcpu d).trace = d.trace ++ control_from n vcpu 0 := by
  induction n with
  | zero => intro vcpu d; simp [pf_disable_loop, control_from]
  | succ n ih =>
    intro vcpu d
    simp only [pf_disable_loop]
    rw [ih, control_events_trace]
    simp [control_from]

theorem set_page_access_loop_ok (n : Nat) :
    ∀ (vcpu : Nat) (d : KvmiDom) (gpa access : Nat), (∀ j < n, d.script j = 0) →
      set_page_access_loop n vcpu d gpa access
        = (true, { d with
            script := fun i => d.script (i + n)
            trace := d.trace ++ set_from n vcpu gpa access
            page_access := fun v g =>
              if vcpu ≤ v ∧ v < vcpu + n ∧ g = gpa then access else d.page_access v g }) := by
  induction n with
  | zero =>
    intro vcpu d gpa access _
    simp [set_page_access_loop, set_from, page_access_none]
  | succ n ih =>
    intro vcpu d gpa access h
    have h0 : d.script 0 = 0 := h 0 (by omega)
    simp only [set_page_access_loop, kvmi_set_page_access, h0, if_true, ne_eq,
      not_true_eq_false, if_false]
    rw [ih]
    · simp only [KvmiDom.request, h0, if_true, set_from, List.append_assoc,
        List.singleton_append, Prod.mk.injEq, true_and, KvmiDom.mk.injEq, and_true]
      refine ⟨?_, ?_⟩
      · exact page_access_step d.page_access vcpu n gpa access
      · first | done | (funext i; rfl)
    · intro j hj
      exact h (j + 1) (by omega)

theorem restore_page_access_loop_ok (n : Nat) :
    ∀ (vcpu : Nat) (d : KvmiDom) (gpa access : Nat), (∀ j < n, d.script j = 0) →
      restore_page_access_loop n vcpu d gpa access
        = { d with
            script := fun i => d.script (i + n)
            trace := d.trace ++ set_from n vcpu gpa access
            page_access := fun v g =>
              if vcpu ≤ v ∧ v < vcpu + n ∧ g = gpa then access else d.page_access v g } := by
  induction n with
  | zero =>
    intro vcpu d gpa access _
    simp [restore_page_access_loop, set_from, page_access_none]
  | succ n ih =>
    intro vcpu d gpa access h
    have h0 : d.script 0 = 0 := h 0 (by omega)
    simp only [restore_page_access_loop, kvmi_set_page_access, h0, if_true]
    rw [ih]
    · simp only [KvmiDom.request, h0, if_true, set_from, List.append_assoc,
        List.singleton_append, KvmiDom.mk.injEq, and_true, true_and]
      refine ⟨?_, ?_⟩
      · exact page_access_step d.page_access vcpu n gpa access
      · first | done | (funext i; rfl)
    · intro j hj
      exact h (j + 1) (by omega)

theorem set_page_access_loop_failed (n : Nat) :
    ∀ (k vcpu : Nat) (d : KvmiDom) (gpa access : Nat),
      k < n → (∀ j < k, d.script j = 0) → d.script k ≠ 0 →
      set_page_access_loop n vcpu d gpa access
        = (false, { d with
            script := fun i => d.script (i + (k + 1))
            errno := d.script k
            trace := d.trace ++ set_from (k + 1) vcpu gpa access
            page_access := fun v g =>
              if vcpu ≤ v ∧ v < vcpu + k ∧ g = gpa then access else d.page_access v g }) := by
  induction n with
  | zero => intro k vcpu d gpa access hk; omega
  | succ n ih =>
    intro k vcpu d gpa access hk hok hfail
    cases k with
    | zero =>
      simp only [set_page_access_loop, kvmi_set_page_access, hfail, if_false, ne_eq,
        KvmiDom.request, set_from]
      simp [page_access_none]
    | succ k =>
      have h0 : d.script 0 = 0 := hok 0 (by omega)
      simp only [set_page_access_loop, kvmi_set_page_access, h0, if_true, ne_eq,
        not_true_eq_false, if_false]
      rw [ih k _ _ _ _ (by omega) (fun j hj => hok (j + 1) (by omega)) hfail]
      simp only [KvmiDom.request, h0, if_true, set_from, List.append_assoc,
        List.singleton_append, Prod.mk.injEq, true_and, KvmiDom.mk.injEq, and_true]
      refine ⟨?_, ?_⟩
      · exact page_access_step d.page_access vcpu k gpa access
      · first | done | (funext i; rfl)

/-! ## The body of `kvm_set_mem_access` -/

theorem convert_access_some (page_access_flag orig : Nat)
    (h : page_access_flag ∈ recognised_access) :
    ∃ kvmi_access, convert_access page_access_flag orig = some kvmi_access := by
  simp only [recognised_access, List.mem_cons, List.mem_singleton, List.mem_nil_iff,
    or_false] at h
  rcases h with rfl | rfl | rfl | rfl | rfl | rfl | rfl <;> exact ⟨_, rfl⟩

theorem set_mem_access_body_eq (vmi : vmi_instance) (gpfn page_access_flag kvmi_access : Nat)
    (hget : vmi.kvmi_dom.script 0 = 0)
    (hconv : convert_access page_access_flag (vmi.kvmi_dom.page_access 0 gpfn % 256)
      = some kvmi_access) :
    set_mem_access_body vmi gpfn page_access_flag
      = if (set_page_access_loop vmi.num_vcpus 0
              (vmi.kvmi_dom.request (.get_page_access 0 gpfn)) (gpa_of gpfn) kvmi_access).1 = false
        then (VMI_SUCCESS, { vmi with
          kvmi_dom := restore_page_access_loop vmi.num_vcpus 0
            (set_page_access_loop vmi.num_vcpus 0
              (vmi.kvmi_dom.request (.get_page_access 0 gpfn)) (gpa_of gpfn) kvmi_access).2
            (gpa_of gpfn) (vmi.kvmi_dom.page_access 0 gpfn % 256) })
        else (VMI_SUCCESS, { vmi with
          kvmi_dom := (set_page_access_loop vmi.num_vcpus 0
              (vmi.kvmi_dom.request (.get_page_access 0 gpfn)) (gpa_of gpfn) kvmi_access).2 }) := by
  simp [set_mem_access_body, kvmi_get_page_access, hget, hconv, gpa_of]

theorem set_mem_access_body_applied (vmi : vmi_instance)
    (gpfn page_access_flag kvmi_access : Nat)
    (hget : vmi.kvmi_dom.script 0 = 0)
    (hconv : convert_access page_access_flag (vmi.kvmi_dom.page_access 0 gpfn % 256)
      = some kvmi_access)
    (hset : ∀ j < vmi.num_vcpus, vmi.kvmi_dom.script (1 + j) = 0) :
    ∀ v < vmi.num_vcpus,
      (set_mem_access_body vmi gpfn page_access_flag).2.kvmi_dom.page_access v (gpa_of gpfn)
        = kvmi_access := by
  intro v hv
  rw [set_mem_access_body_eq vmi gpfn page_access_flag kvmi_access hget hconv]
  rw [set_page_access_loop_ok vmi.num_vcpus 0 _ _ _
    (by intro j hj; simpa [KvmiDom.request, Nat.add_comm] using hset j hj)]
  simp [hv]

theorem set_mem_access_body_restored (vmi : vmi_instance)
    (gpfn page_access_flag kvmi_access k : Nat)
    (hget : vmi.kvmi_dom.script 0 = 0)
    (hconv : convert_access page_access_flag (vmi.kvmi_dom.page_access 0 gpfn % 256)
      = some kvmi_access)
    (hk : k < vmi.num_vcpus)
    (hset : ∀ j < k, vmi.kvmi_dom.script (1 + j) = 0)
    (hfail : vmi.kvmi_dom.script (1 + k) ≠ 0)
    (hback : ∀ j < vmi.num_vcpus, vmi.kvmi_dom.script (1 + k + 1 + j) = 0) :
    ∀ v < vmi.num_vcpus,
      (set_mem_access_body vmi gpfn page_access_flag).2.kvmi_dom.page_access v (gpa_of gpfn)
        = vmi.kvmi_dom.page_access 0 gpfn % 256 := by
  intro v hv
  rw [set_mem_access_body_eq vmi gpfn page_access_flag kvmi_access hget hconv]
  rw [set_page_access_loop_failed vmi.num_vcpus k 0 _ _ _ hk
    (by intro j hj; simpa [KvmiDom.request, Nat.add_comm] using hset j hj)
    (by simpa [KvmiDom.request, Nat.add_comm] using hfail)]
  simp only [if_true]
  rw [restore_page_access_loop_ok vmi.num_vcpus 0 _ _ _
    (by
      intro j hj
      have := hback j hj
      simp only [KvmiDom.request]
      rw [← this]
      congr 1
      omega)]
  simp [hv]

theorem set_mem_access_body_traceExt (vmi : vmi_instance) (gpfn page_access_flag : Nat) :
    TraceExt (fun e => e.is_page_access = true) vmi.kvmi_dom
      (set_mem_access_body vmi gpfn page_access_flag).2.kvmi_dom ∧
    (set_mem_access_body vmi gpfn page_access_flag).2.pf_enabled = vmi.pf_enabled ∧
    (set_mem_access_body vmi gpfn page_access_flag).2.num_vcpus = vmi.num_vcpus := by
  have hsp : ∀ e : Effect, e.is_set_page_access = true → e.is_page_access = true := by
    intro e he
    cases e <;> simp_all [Effect.is_page_access, Effect.is_set_page_access]
  have ht : TraceExt (fun e => e.is_page_access = true) vmi.kvmi_dom
      (kvmi_get_page_access vmi.kvmi_dom 0 gpfn).2.2 :=
    (get_page_access_traceExt vmi.kvmi_dom 0 gpfn).mono (by rintro e rfl; rfl)
  unfold set_mem_access_body
  simp only []
  split_ifs
  · exact ⟨ht, rfl, rfl⟩
  · split
    · exact ⟨ht, rfl, rfl⟩
    · split
      · exact ⟨ht, rfl, rfl⟩
      · split_ifs
        · refine ⟨ht.trans (((set_page_access_loop_traceExt _ _ _ _ _).trans
            (restore_page_access_loop_traceExt _ _ _ _ _)).mono hsp), rfl, rfl⟩
        · exact ⟨ht.trans ((set_page_access_loop_traceExt _ _ _ _ _).mono hsp), rfl, rfl⟩

/-! ## Applying a mask to every VCPU -/

theorem pf_enable_loop_true (K : KvmiConsts) (n : Nat) :
    ∀ (vcpu : Nat) (d : KvmiDom), (pf_enable_loop K n vcpu d).1 = true →
      ∀ j < n, d.script j = 0 := by
  induction n with
  | zero => intro vcpu d _ j hj; omega
  | succ n ih =>
    intro vcpu d h j hj
    by_cases h0 : d.script 0 = 0
    · cases j with
      | zero => exact h0
      | succ j =>
        simp only [pf_enable_loop, kvmi_control_events, h0, if_true, ne_eq, not_true_eq_false,
          if_false] at h
        exact ih _ _ h j (by omega)
    · simp [pf_enable_loop, kvmi_control_events, h0] at h

theorem set_mem_access_body_get_failed (vmi : vmi_instance) (gpfn page_access_flag : Nat)
    (hget : vmi.kvmi_dom.script 0 ≠ 0) :
    (set_mem_access_body vmi gpfn page_access_flag).2.kvmi_dom.page_access
      = vmi.kvmi_dom.page_access := by
  simp [set_mem_access_body, kvmi_get_page_access, hget, KvmiDom.request]

theorem set_mem_access_not_applied (K : KvmiConsts) (vmi : vmi_instance)
    (gpfn page_access_flag : Nat)
    (h : ∃ j ≤ arming_requests vmi, vmi.kvmi_dom.script j ≠ 0) :
    (kvm_set_mem_access K vmi gpfn page_access_flag).2.kvmi_dom.page_access
      = vmi.kvmi_dom.page_access := by
  obtain ⟨j, hj, hfail⟩ := h
  cases hpf : vmi.pf_enabled with
  | true =>
    have ha : arming_requests vmi = 0 := by simp [arming_requests, hpf]
    have hj0 : j = 0 := by omega
    subst hj0
    rw [kvm_set_mem_access_latched K vmi gpfn page_access_flag hpf]
    exact set_mem_access_body_get_failed vmi gpfn page_access_flag hfail
  | false =>
    have ha : arming_requests vmi = vmi.num_vcpus := by simp [arming_requests, hpf]
    cases hloop : (pf_enable_loop K vmi.num_vcpus 0 vmi.kvmi_dom).1 with
    | false =>
      rw [kvm_set_mem_access_arm_failed K vmi gpfn page_access_flag hpf hloop]
      simp only [pf_disable_loop_page_access, pf_enable_loop_page_access]
    | true =>
      have hall := pf_enable_loop_true K vmi.num_vcpus 0 vmi.kvmi_dom hloop
      have hjN : j = vmi.num_vcpus := by
        by_contra hne
        exact hfail (hall j (by omega))
      subst hjN
      rw [kvm_set_mem_access_armed K vmi gpfn page_access_flag hpf hloop]
      rw [pf_enable_loop_ok K vmi.num_vcpus 0 vmi.kvmi_dom hall]
      rw [set_mem_access_body_get_failed _ gpfn page_access_flag (by simpa using hfail)]

theorem set_mem_access_reached (K : KvmiConsts) (vmi : vmi_instance)
    (gpfn page_access_flag kvmi_access : Nat)
    (hconv : convert_access page_access_flag (vmi.kvmi_dom.page_access 0 gpfn % 256)
      = some kvmi_access)
    (harm : ∀ j < arming_requests vmi, vmi.kvmi_dom.script j = 0)
    (hget : vmi.kvmi_dom.script (arming_requests vmi) = 0) :
    ((∀ j < vmi.num_vcpus, vmi.kvmi_dom.script (arming_requests vmi + 1 + j) = 0) →
      ∀ v < vmi.num_vcpus,
        (kvm_set_mem_access K vmi gpfn page_access_flag).2.kvmi_dom.page_access v
          (gpa_of gpfn) = kvmi_access) ∧
    (∀ k < vmi.num_vcpus,
      (∀ j < k, vmi.kvmi_dom.script (arming_requests vmi + 1 + j) = 0) →
      vmi.kvmi_dom.script (arming_requests vmi + 1 + k) ≠ 0 →
      (∀ j < vmi.num_vcpus,
        vmi.kvmi_dom.script (arming_requests vmi + 1 + k + 1 + j) = 0) →
      ∀ v < vmi.num_vcpus,
        (kvm_set_mem_access K vmi gpfn page_access_flag).2.kvmi_dom.page_access v
          (gpa_of gpfn) = vmi.kvmi_dom.page_access 0 gpfn % 256) := by
  cases hpf : vmi.pf_enabled with
  | true =>
    have ha : arming_requests vmi = 0 := by simp [arming_requests, hpf]
    rw [ha] at hget
    simp only [ha, Nat.zero_add]
    rw [kvm_set_mem_access_latched K vmi gpfn page_access_flag hpf]
    refine ⟨fun hset => ?_, fun k hk hset hfail hback => ?_⟩
    · exact set_mem_access_body_applied vmi gpfn page_access_flag kvmi_access hget hconv hset
    · exact set_mem_access_body_restored vmi gpfn page_access_flag kvmi_access k hget hconv hk
        hset hfail hback
  | false =>
    have ha : arming_requests vmi = vmi.num_vcpus := by simp [arming_requests, hpf]
    rw [ha] at harm hget
    simp only [ha]
    have hloop := pf_enable_loop_ok K vmi.num_vcpus 0 vmi.kvmi_dom harm
    rw [kvm_set_mem_access_armed K vmi gpfn page_access_flag hpf (by rw [hloop])]
    rw [hloop]
    refine ⟨fun hset => ?_, fun k hk hset hfail hback => ?_⟩
    · exact set_mem_access_body_applied
        { vmi with
          pf_enabled := true
          kvmi_dom := { vmi.kvmi_dom with
            script := fun i => vmi.kvmi_dom.script (i + vmi.num_vcpus)
            trace := vmi.kvmi_dom.trace ++ control_from vmi.num_vcpus 0 K.KVMI_EVENT_PF_FLAG } }
        gpfn page_access_flag kvmi_access (by simpa using hget) hconv
        (by
          intro j hj
          have := hset j hj
          simp only []
          rw [← this]
          congr 1
          omega)
    · exact set_mem_access_body_restored
        { vmi with
          pf_enabled := true
          kvmi_dom := { vmi.kvmi_dom with
            script := fun i => vmi.kvmi_dom.script (i + vmi.num_vcpus)
            trace := vmi.kvmi_dom.trace ++ control_from vmi.num_vcpus 0 K.KVMI_EVENT_PF_FLAG } }
        gpfn page_access_flag kvmi_access k (by simpa using hget) hconv hk
        (by
          intro j hj
          have := hset j hj
          simp only []
          rw [← this]
          congr 1
          omega)
        (by
          intro h
          apply hfail
          rw [← h]
          simp only []
          congr 1
          omega)
        (by
          intro j hj
          have := hback j hj
          simp only []
          rw [← this]
          congr 1
          omega)

/-- What `kvm_set_mem_access` leaves at the address `gpfn << 12` for a
recognised requested mask, in terms of the mask that it reads, which is the
one stored for VCPU 0 under the address `gpfn` (the frame number itself,
not `gpfn << 12`); `arming_requests vmi + 1` is the number of requests that
come before the mask is applied. If all requests up to the last
set-page-access succeed, every VCPU holds the mask computed from the mask
read. If the set-page-access request fails first at VCPU `k` and the
requests of the rollback succeed, every VCPU holds the mask read. If the
call does not get as far as applying the mask (an arming request or the
read fails), the page-access store is as it was before the call. -/
theorem set_mem_access_new_or_original (K : KvmiConsts) (vmi : vmi_instance)
    (gpfn page_access_flag : Nat) (hflag : page_access_flag ∈ recognised_access) :
    ∃ kvmi_access,
      convert_access page_access_flag (vmi.kvmi_dom.page_access 0 gpfn % 256)
        = some kvmi_access ∧
      ((∀ j < arming_requests vmi + 1 + vmi.num_vcpus, vmi.kvmi_dom.script j = 0) →
        ∀ v < vmi.num_vcpus,
          (kvm_set_mem_access K vmi gpfn page_access_flag).2.kvmi_dom.page_access v
            (gpa_of gpfn) = kvmi_access) ∧
      (∀ k < vmi.num_vcpus,
        (∀ j < arming_requests vmi + 1 + k, vmi.kvmi_dom.script j = 0) →
        vmi.kvmi_dom.script (arming_requests vmi + 1 + k) ≠ 0 →
        (∀ j < vmi.num_vcpus,
          vmi.kvmi_dom.script (arming_requests vmi + 1 + k + 1 + j) = 0) →
        ∀ v < vmi.num_vcpus,
          (kvm_set_mem_access K vmi gpfn page_access_flag).2.kvmi_dom.page_access v
            (gpa_of gpfn) = vmi.kvmi_dom.page_access 0 gpfn % 256) ∧
      ((∃ j ≤ arming_requests vmi, vmi.kvmi_dom.script j ≠ 0) →
        (kvm_set_mem_access K vmi gpfn page_access_flag).2.kvmi_dom.page_access
          = vmi.kvmi_dom.page_access) := by
  obtain ⟨kvmi_access, hconv⟩ :=
    convert_access_some page_access_flag (vmi.kvmi_dom.page_access 0 gpfn % 256) hflag
  refine ⟨kvmi_access, hconv, ?_, ?_, set_mem_access_not_applied K vmi gpfn page_access_flag⟩
  · intro hall
    exact (set_mem_access_reached K vmi gpfn page_access_flag kvmi_access hconv
      (fun j hj => hall j (by omega)) (hall _ (by omega))).1
      (fun j hj => hall _ (by omega))
  · intro k hk hok hfail hback
    exact (set_mem_access_reached K vmi gpfn page_access_flag kvmi_access hconv
      (fun j hj => hok j (by omega)) (hok _ (by omega))).2 k hk
      (fun j hj => hok _ (by omega)) hfail hback

/-- At a concrete input where every address holds the mask 7: four VCPUs,
the latch unset, the request RW on frame 0x1000 with a script whose request
number 7 (the set-page-access for VCPU 2) fails. Every VCPU holds the mask 7
afterwards. -/
theorem set_mem_access_new_or_original_witness :
    VMI_MEMACCESS_RW ∈ recognised_access ∧
    ∀ v < 4,
      (kvm_set_mem_access exampleConsts
        (exampleVmi false 0 (fun i => if i = 7 then 5 else 0) []) 0x1000
        VMI_MEMACCESS_RW).2.kvmi_dom.page_access v (gpa_of 0x1000) = 7 := by
  refine ⟨by decide, ?_⟩
  obtain ⟨_, _, _, h, _⟩ := set_mem_access_new_or_original exampleConsts
    (exampleVmi false 0 (fun i => if i = 7 then 5 else 0) []) 0x1000 VMI_MEMACCESS_RW
    (by decide)
  exact h 2 (by decide) (by decide) (by decide) (by decide)

/-- C1 (the code at a failing input): four VCPUs, every address with the
mask 7 at first. A first call asks for RW on frame 0x1000 and all its
requests succeed: the frame (address 0x1000000) holds the mask 4 on all four
VCPUs, the address 0x1000 still holds 7. A second call asks for X on the
same frame, and its set-page-access request for VCPU 2 fails (request
number 12 of the script: nine requests of the first call, the read and two
successful writes come first). The second call reads the mask 7 at the
address 0x1000, computes 3 from it, writes 3 for the VCPUs 0 and 1, fails at
VCPU 2 and then writes 7 for the VCPUs 0 to 3. Every VCPU holds 7 for the
frame afterwards: not the mask 4 that the frame had before the call, and
not a newly computed mask (3 as the code computes it, 0 as the mask 4 of
the frame gives it). -/
theorem set_mem_access_rollback_writes_mask_of_other_address :
    (∀ v < 4,
      (kvm_set_mem_access exampleConsts
        (exampleVmi false 0 (fun i => if i = 12 then 5 else 0) []) 0x1000
        VMI_MEMACCESS_RW).2.kvmi_dom.page_access v (gpa_of 0x1000) = 4) ∧
    (kvm_set_mem_access exampleConsts
      (exampleVmi false 0 (fun i => if i = 12 then 5 else 0) []) 0x1000
      VMI_MEMACCESS_RW).2.kvmi_dom.page_access 0 0x1000 = 7 ∧
    (kvm_set_mem_access exampleConsts
      (kvm_set_mem_access exampleConsts
        (exampleVmi false 0 (fun i => if i = 12 then 5 else 0) []) 0x1000
        VMI_MEMACCESS_RW).2
      0x1000 VMI_MEMACCESS_X).2.kvmi_dom.trace
      = control_pass 4 exampleConsts.KVMI_EVENT_PF_FLAG
        ++ [.get_page_access 0 0x1000]
        ++ set_pass 4 0x1000000 4
        ++ [.get_page_access 0 0x1000,
            .set_page_access 0 0x1000000 3, .set_page_access 1 0x1000000 3,
            .set_page_access 2 0x1000000 3]
        ++ set_pass 4 0x1000000 7 ∧
    (∀ v < 4,
      (kvm_set_mem_access exampleConsts
        (kvm_set_mem_access exampleConsts
          (exampleVmi false 0 (fun i => if i = 12 then 5 else 0) []) 0x1000
          VMI_MEMACCESS_RW).2
        0x1000 VMI_MEMACCESS_X).2.kvmi_dom.page_access v (gpa_of 0x1000) = 7) ∧
    convert_access VMI_MEMACCESS_X 7 = some 3 ∧
    convert_access VMI_MEMACCESS_X 4 = some 0 := by
  decide

/-- C2 (the code at a failing input): four VCPUs, the request RW on frame
0x1000, and the set-page-access request of VCPU 2 fails (request number 7
of the script: four arming requests, one read, two successful writes come
first). The new mask 4 reaches VCPUs 0 and 1, the request for VCPU 2 fails,
the original mask 7 is put back on the VCPUs 0 to 3, and the function
returns `VMI_SUCCESS`. -/
theorem set_mem_access_reports_success_after_rollback :
    (kvm_set_mem_access exampleConsts
      (exampleVmi false 0 (fun i => if i = 7 then 5 else 0) []) 0x1000 VMI_MEMACCESS_RW).1
      = VMI_SUCCESS ∧
    (kvm_set_mem_access exampleConsts
      (exampleVmi false 0 (fun i => if i = 7 then 5 else 0) []) 0x1000
      VMI_MEMACCESS_RW).2.kvmi_dom.trace
      = control_pass 4 exampleConsts.KVMI_EVENT_PF_FLAG
        ++ [.get_page_access 0 0x1000,
            .set_page_access 0 0x1000000 4, .set_page_access 1 0x1000000 4,
            .set_page_access 2 0x1000000 4]
        ++ set_pass 4 0x1000000 7 ∧
    (kvm_set_mem_access exampleConsts
      (exampleVmi false 0 (fun i => if i = 7 then 5 else 0) []) 0x1000
      VMI_MEMACCESS_RW).2.kvmi_dom.errno = 5 := by
  decide

/-! ## Arming page-fault delivery -/

theorem filter_control_of_traceExt (d1 d2 : KvmiDom)
    (h : TraceExt (fun e => e.is_control_events = false) d1 d2) :
    d2.trace.filter Effect.is_control_events = d1.trace.filter Effect.is_control_events := by
  obtain ⟨added, hadd, hP⟩ := h
  rw [hadd, List.filter_append]
  have : added.filter Effect.is_control_events = [] := by
    rw [List.filter_eq_nil_iff]
    intro e he
    simp [hP e he]
  rw [this, List.append_nil]

theorem filter_control_pass (n flags : Nat) :
    (control_pass n flags).filter Effect.is_control_events = control_pass n flags := by
  rw [List.filter_eq_self]
  intro e he
  simp only [control_pass, List.mem_map] at he
  obtain ⟨v, _, rfl⟩ := he
  rfl

theorem page_access_not_control (e : Effect) (h : e.is_page_access = true) :
    e.is_control_events = false := by
  cases e <;> simp_all [Effect.is_page_access, Effect.is_control_events]

theorem set_mem_access_latched_no_control (K : KvmiConsts) (vmi : vmi_instance)
    (gpfn page_access_flag : Nat) (hpf : vmi.pf_enabled = true) :
    (kvm_set_mem_access K vmi gpfn page_access_flag).2.pf_enabled = true ∧
    (kvm_set_mem_access K vmi gpfn page_access_flag).2.kvmi_dom.trace.filter
        Effect.is_control_events
      = vmi.kvmi_dom.trace.filter Effect.is_control_events := by
  rw [kvm_set_mem_access_latched K vmi gpfn page_access_flag hpf]
  obtain ⟨ht, hp, -⟩ := set_mem_access_body_traceExt vmi gpfn page_access_flag
  exact ⟨hp.trans hpf, filter_control_of_traceExt _ _ (ht.mono page_access_not_control)⟩

theorem set_mem_access_calls_latched (K : KvmiConsts) (calls : List (Nat × Nat)) :
    ∀ vmi : vmi_instance, vmi.pf_enabled = true →
      (set_mem_access_calls K vmi calls).kvmi_dom.trace.filter Effect.is_control_events
        = vmi.kvmi_dom.trace.filter Effect.is_control_events := by
  induction calls with
  | nil => intro vmi _; rfl
  | cons c rest ih =>
    intro vmi hpf
    obtain ⟨gpfn, page_access_flag⟩ := c
    obtain ⟨h1, h2⟩ := set_mem_access_latched_no_control K vmi gpfn page_access_flag hpf
    simp only [set_mem_access_calls]
    rw [ih _ h1, h2]

/-- C3: page-fault arming is idempotent. Take a driver whose latch is unset
and any sequence of `n ≥ 1` calls of `kvm_set_mem_access` (the first with
`gpfn` and `page_access_flag`, the others with the arguments in `calls`),
where the arming requests succeed. After the first call the control-events
requests of the trace are the earlier ones followed by exactly one arming
pass, one request with the page-fault flag per VCPU, and the latch is set.
After all `n` calls the control-events requests are still the same: the
calls 2 to `n` issued none, whatever their arguments and whatever the
transport answered to them. -/
theorem set_mem_access_arms_once (K : KvmiConsts) (vmi : vmi_instance)
    (gpfn page_access_flag : Nat) (calls : List (Nat × Nat))
    (hpf : vmi.pf_enabled = false)
    (harm : ∀ j < vmi.num_vcpus, vmi.kvmi_dom.script j = 0) :
    (kvm_set_mem_access K vmi gpfn page_access_flag).2.pf_enabled = true ∧
    (kvm_set_mem_access K vmi gpfn page_access_flag).2.kvmi_dom.trace.filter
        Effect.is_control_events
      = vmi.kvmi_dom.trace.filter Effect.is_control_events
          ++ control_pass vmi.num_vcpus K.KVMI_EVENT_PF_FLAG ∧
    (set_mem_access_calls K vmi ((gpfn, page_access_flag) :: calls)).kvmi_dom.trace.filter
        Effect.is_control_events
      = vmi.kvmi_dom.trace.filter Effect.is_control_events
          ++ control_pass vmi.num_vcpus K.KVMI_EVENT_PF_FLAG := by
  have hloop := pf_enable_loop_ok K vmi.num_vcpus 0 vmi.kvmi_dom harm
  have hfirst : (kvm_set_mem_access K vmi gpfn page_access_flag).2.pf_enabled = true ∧
      (kvm_set_mem_access K vmi gpfn page_access_flag).2.kvmi_dom.trace.filter
          Effect.is_control_events
        = vmi.kvmi_dom.trace.filter Effect.is_control_events
            ++ control_pass vmi.num_vcpus K.KVMI_EVENT_PF_FLAG := by
    rw [kvm_set_mem_access_armed K vmi gpfn page_access_flag hpf (by rw [hloop])]
    rw [hloop]
    obtain ⟨ht, hp, -⟩ := set_mem_access_body_traceExt
      { vmi with
        pf_enabled := true
        kvmi_dom := { vmi.kvmi_dom with
          script := fun i => vmi.kvmi_dom.script (i + vmi.num_vcpus)
          trace := vmi.kvmi_dom.trace ++ control_from vmi.num_vcpus 0 K.KVMI_EVENT_PF_FLAG } }
      gpfn page_access_flag
    refine ⟨hp, ?_⟩
    rw [filter_control_of_traceExt _ _ (ht.mono page_access_not_control)]
    simp only [List.filter_append, control_from_zero, filter_control_pass]
  refine ⟨hfirst.1, hfirst.2, ?_⟩
  simp only [set_mem_access_calls]
  rw [set_mem_access_calls_latched K calls _ hfirst.1, hfirst.2]

/-- C3, at a concrete input: three calls on a fresh four-VCPU driver, the
second with an unrecognised mask, leave exactly four control-events
requests in the trace. -/
theorem set_mem_access_arms_once_witness :
    (set_mem_access_calls exampleConsts (exampleVmi false 0 (fun _ => 0) [])
      [(0x1000, VMI_MEMACCESS_RW), (0x2000, VMI_MEMACCESS_RX),
       (0x1000, VMI_MEMACCESS_N)]).kvmi_dom.trace.filter Effect.is_control_events
      = control_pass 4 exampleConsts.KVMI_EVENT_PF_FLAG :=
  (set_mem_access_arms_once exampleConsts (exampleVmi false 0 (fun _ => 0) [])
    0x1000 VMI_MEMACCESS_RW [(0x2000, VMI_MEMACCESS_RX), (0x1000, VMI_MEMACCESS_N)]
    rfl (by decide)).2.2

theorem last_control_flags_append_pass (trace : List Effect) (n flags vcpu : Nat)
    (hv : vcpu < n) :
    last_control_flags (trace ++ control_pass n flags) vcpu = some flags := by
  induction n with
  | zero => omega
  | succ n ih =>
    have hsplit : control_pass (n + 1) flags
        = control_pass n flags ++ [Effect.control_events n flags] := by
      simp [control_pass, List.range_succ]
    rw [hsplit, ← List.append_assoc]
    unfold last_control_flags at ih ⊢
    rw [List.foldl_append]
    by_cases hvn : n = vcpu
    · simp [hvn]
    · have hlt : vcpu < n := by omega
      simp only [List.foldl_cons, List.foldl_nil, hvn, if_false]
      exact ih hlt

/-- C4: arming is all-or-nothing. When the latch is unset and arming fails
first at VCPU `k`, `kvm_set_mem_access` returns `VMI_FAILURE` with the latch
still unset. What the call adds to the trace is the arming requests of the
VCPUs `0 .. k` followed by one control-events request with the value 0 for
every VCPU, so the last event-control value sent to each VCPU is 0; none of
the added effects reads or writes a page-access mask, and the page-access
store is as before. -/
theorem set_mem_access_arming_all_or_nothing (K : KvmiConsts) (vmi : vmi_instance)
    (gpfn page_access_flag k : Nat)
    (hpf : vmi.pf_enabled = false) (hk : k < vmi.num_vcpus)
    (hok : ∀ j < k, vmi.kvmi_dom.script j = 0) (hfail : vmi.kvmi_dom.script k ≠ 0) :
    (kvm_set_mem_access K vmi gpfn page_access_flag).1 = VMI_FAILURE ∧
    (kvm_set_mem_access K vmi gpfn page_access_flag).2.pf_enabled = false ∧
    (kvm_set_mem_access K vmi gpfn page_access_flag).2.kvmi_dom.trace
      = vmi.kvmi_dom.trace ++ (control_pass (k + 1) K.KVMI_EVENT_PF_FLAG
          ++ control_pass vmi.num_vcpus 0) ∧
    (∀ vcpu < vmi.num_vcpus,
      last_control_flags (kvm_set_mem_access K vmi gpfn page_access_flag).2.kvmi_dom.trace vcpu
        = some 0) ∧
    (∀ e ∈ control_pass (k + 1) K.KVMI_EVENT_PF_FLAG ++ control_pass vmi.num_vcpus 0,
      e.is_page_access = false) ∧
    (kvm_set_mem_access K vmi gpfn page_access_flag).2.kvmi_dom.page_access
      = vmi.kvmi_dom.page_access := by
  have hloop := pf_enable_loop_failed K vmi.num_vcpus k 0 vmi.kvmi_dom hk hok hfail
  rw [kvm_set_mem_access_arm_failed K vmi gpfn page_access_flag hpf (by rw [hloop])]
  rw [hloop]
  have htrace : (pf_disable_loop vmi.num_vcpus 0
      { vmi.kvmi_dom with
        script := fun i => vmi.kvmi_dom.script (i + (k + 1))
        errno := vmi.kvmi_dom.script k
        trace := vmi.kvmi_dom.trace ++ control_from (k + 1) 0 K.KVMI_EVENT_PF_FLAG }).trace
      = vmi.kvmi_dom.trace ++ (control_pass (k + 1) K.KVMI_EVENT_PF_FLAG
          ++ control_pass vmi.num_vcpus 0) := by
    rw [pf_disable_loop_trace]
    simp only [control_from_zero, List.append_assoc]
  refine ⟨rfl, hpf, htrace, ?_, ?_, ?_⟩
  · intro vcpu hv
    simp only []
    rw [htrace, ← List.append_assoc]
    exact last_control_flags_append_pass _ _ _ _ hv
  · intro e he
    rcases List.mem_append.mp he with h | h <;>
      · simp only [control_pass, List.mem_map] at h
        obtain ⟨v, _, rfl⟩ := h
        rfl
  · simp only [pf_disable_loop_page_access]

/-- C4, at a concrete input: four VCPUs, arming fails at VCPU 2. -/
theorem set_mem_access_arming_all_or_nothing_witness :
    (kvm_set_mem_access exampleConsts
      (exampleVmi false 0 (fun i => if i = 2 then 5 else 0) []) 0x1000 VMI_MEMACCESS_RW).1
      = VMI_FAILURE ∧
    (kvm_set_mem_access exampleConsts
      (exampleVmi false 0 (fun i => if i = 2 then 5 else 0) []) 0x1000
      VMI_MEMACCESS_RW).2.kvmi_dom.trace
      = [] ++ (control_pass 3 exampleConsts.KVMI_EVENT_PF_FLAG ++ control_pass 4 0) :=
  have h := set_mem_access_arming_all_or_nothing exampleConsts
    (exampleVmi false 0 (fun i => if i = 2 then 5 else 0) []) 0x1000 VMI_MEMACCESS_RW 2
    rfl (by decide) (by decide) (by decide)
  ⟨h.1, h.2.2.1⟩

/-! ## Draining the pause confirmations -/

theorem kvm_resume_loop_done (K : KvmiConsts) (fuel : Nat) (vmi : vmi_instance)
    (h : vmi.expected_pause_count = 0) :
    kvm_resume_loop K fuel vmi = some (VMI_SUCCESS, vmi) := by
  cases fuel <;> simp [kvm_resume_loop, h]

theorem kvm_resume_loop_confirmation (K : KvmiConsts) (fuel : Nat) (vmi : vmi_instance)
    (ev : kvmi_dom_event) (rest : List kvmi_dom_event)
    (hc : vmi.expected_pause_count ≠ 0) (hq : vmi.kvmi_dom.queue = ev :: rest)
    (hev : ev.event = K.KVMI_EVENT_PAUSE_VCPU)
    (h0 : vmi.kvmi_dom.script 0 = 0) (h1 : vmi.kvmi_dom.script 1 = 0)
    (h2 : vmi.kvmi_dom.script 2 = 0) :
    kvm_resume_loop K (fuel + 1) vmi
      = kvm_resume_loop K fuel
          { vmi with
            expected_pause_count := (vmi.expected_pause_count + 4294967295) % 4294967296
            kvmi_dom := { vmi.kvmi_dom with
              queue := rest
              script := fun i => vmi.kvmi_dom.script (i + 3)
              trace := vmi.kvmi_dom.trace ++ drain_effects K ev } } := by
  rw [kvm_resume_loop]
  simp [hc, kvmi_wait_event, hq, h0, h1, h2, kvmi_pop_event, KvmiDom.request, hev,
    reply_continue, kvmi_reply_event, KvmiDom.log, drain_effects]

theorem after_confirmations_zero (K : KvmiConsts) (vmi : vmi_instance) :
    after_confirmations K vmi 0 = vmi := by
  simp [after_confirmations]

theorem after_confirmations_succ (K : KvmiConsts) (vmi : vmi_instance) (ev : kvmi_dom_event)
    (rest : List kvmi_dom_event) (j : Nat) (hq : vmi.kvmi_dom.queue = ev :: rest)
    (hc : 1 ≤ vmi.expected_pause_count) (h32 : vmi.expected_pause_count < 4294967296) :
    after_confirmations K
      { vmi with
        expected_pause_count := (vmi.expected_pause_count + 4294967295) % 4294967296
        kvmi_dom := { vmi.kvmi_dom with
          queue := rest
          script := fun i => vmi.kvmi_dom.script (i + 3)
          trace := vmi.kvmi_dom.trace ++ drain_effects K ev } } j
      = after_confirmations K vmi (j + 1) := by
  have hdec : (vmi.expected_pause_count + 4294967295) % 4294967296
      = vmi.expected_pause_count - 1 := by omega
  simp only [after_confirmations, hq, hdec, List.drop_succ_cons, List.take_succ_cons,
    List.flatMap_cons, List.append_assoc, vmi_instance.mk.injEq, KvmiDom.mk.injEq,
    true_and, and_true]
  refine ⟨by omega, ?_⟩
  funext i
  have : i + 3 * j + 3 = i + 3 * (j + 1) := by omega
  rw [this]

theorem kvm_resume_loop_drain (K : KvmiConsts) (j : Nat) :
    ∀ (fuel : Nat) (vmi : vmi_instance),
      j ≤ fuel → j ≤ vmi.expected_pause_count → vmi.expected_pause_count < 4294967296 →
      j ≤ vmi.kvmi_dom.queue.length →
      (∀ e ∈ vmi.kvmi_dom.queue.take j, e.event = K.KVMI_EVENT_PAUSE_VCPU) →
      (∀ i < 3 * j, vmi.kvmi_dom.script i = 0) →
      kvm_resume_loop K fuel vmi = kvm_resume_loop K (fuel - j) (after_confirmations K vmi j) := by
  induction j with
  | zero =>
    intro fuel vmi _ _ _ _ _ _
    rw [after_confirmations_zero, Nat.sub_zero]
  | succ j ih =>
    intro fuel vmi hfuel hcount h32 hlen hev hscript
    obtain ⟨fuel, rfl⟩ : ∃ f, fuel = f + 1 := ⟨fuel - 1, by omega⟩
    cases hq : vmi.kvmi_dom.queue with
    | nil => rw [hq] at hlen; simp at hlen
    | cons ev rest =>
      rw [hq] at hlen hev
      have hev0 : ev.event = K.KVMI_EVENT_PAUSE_VCPU := hev ev (by simp)
      rw [kvm_resume_loop_confirmation K fuel vmi ev rest (by omega) hq hev0
        (hscript 0 (by omega)) (hscript 1 (by omega)) (hscript 2 (by omega))]
      have hdec : (vmi.expected_pause_count + 4294967295) % 4294967296
          = vmi.expected_pause_count - 1 := by omega
      rw [ih fuel _ (by omega) (by simp only [hdec]; omega) (by simp only [hdec]; omega)
        (by simp only [List.length_cons] at hlen; simpa using (by omega : j ≤ rest.length))
        (by
          intro e he
          exact hev e (by simp only [List.take_succ_cons, List.mem_cons]; exact Or.inr he))
        (by
          intro i hi
          exact hscript (i + 3) (by omega))]
      have hfuel' : fuel + 1 - (j + 1) = fuel - j := by omega
      rw [hfuel', after_confirmations_succ K vmi ev rest j hq (by omega) h32]

theorem kvm_resume_vm_eq_loop (K : KvmiConsts) (vmi : vmi_instance) :
    kvm_resume_vm K vmi = kvm_resume_loop K vmi.expected_pause_count vmi := by
  unfold kvm_resume_vm
  split_ifs with h
  · rw [kvm_resume_loop_done K _ vmi h]
  · rfl

/-- The function `kvm_resume_vm` always returns: the fuel it gives its loop is enough. -/
theorem kvm_resume_loop_returns (K : KvmiConsts) (fuel : Nat) :
    ∀ vmi : vmi_instance, vmi.expected_pause_count ≤ fuel →
      (kvm_resume_loop K fuel vmi).isSome = true := by
  induction fuel with
  | zero =>
    intro vmi h
    rw [kvm_resume_loop_done K 0 vmi (by omega)]
    rfl
  | succ fuel ih =>
    intro vmi h
    rw [kvm_resume_loop]
    split_ifs with hc
    · rfl
    · simp only []
      split_ifs
      · rfl
      · rfl
      · split
        · rfl
        · split_ifs
          · rfl
          · exact ih _ (by simp only []; omega)
          · rfl

theorem kvm_resume_vm_returns (K : KvmiConsts) (vmi : vmi_instance) :
    (kvm_resume_vm K vmi).isSome = true := by
  rw [kvm_resume_vm_eq_loop]
  exact kvm_resume_loop_returns K _ vmi (Nat.le_refl _)

theorem kvm_resume_loop_unexpected (K : KvmiConsts) (fuel : Nat) (vmi : vmi_instance)
    (ev : kvmi_dom_event) (rest : List kvmi_dom_event)
    (hc : vmi.expected_pause_count ≠ 0) (hq : vmi.kvmi_dom.queue = ev :: rest)
    (hev : ev.event ≠ K.KVMI_EVENT_PAUSE_VCPU)
    (h0 : vmi.kvmi_dom.script 0 = 0) (h1 : vmi.kvmi_dom.script 1 = 0) :
    kvm_resume_loop K (fuel + 1) vmi
      = some (VMI_FAILURE,
          { vmi with
            kvmi_dom := { vmi.kvmi_dom with
              queue := rest
              script := fun i => vmi.kvmi_dom.script (i + 2)
              trace := vmi.kvmi_dom.trace ++ [.wait_event 1000, .pop_event, .free ev] } }) := by
  rw [kvm_resume_loop]
  simp [hc, kvmi_wait_event, hq, h0, h1, kvmi_pop_event, KvmiDom.request, hev, KvmiDom.log]

theorem kvm_resume_loop_timeout (K : KvmiConsts) (fuel : Nat) (vmi : vmi_instance)
    (hc : vmi.expected_pause_count ≠ 0)
    (ht : vmi.kvmi_dom.queue = [] ∨ vmi.kvmi_dom.script 0 = ETIMEDOUT) :
    kvm_resume_loop K (fuel + 1) vmi
      = some (VMI_FAILURE,
          { vmi with
            kvmi_dom := { vmi.kvmi_dom with
              script := fun i => vmi.kvmi_dom.script (i + 1)
              errno := ETIMEDOUT
              trace := vmi.kvmi_dom.trace ++ [.wait_event 1000] } }) := by
  rw [kvm_resume_loop]
  by_cases hq : vmi.kvmi_dom.queue = []
  · simp [hc, kvmi_wait_event, hq, KvmiDom.request]
  · have hs : vmi.kvmi_dom.script 0 = ETIMEDOUT := ht.resolve_left hq
    simp [hc, kvmi_wait_event, hq, KvmiDom.request, hs, ETIMEDOUT]

/-! ## Pause, then resume -/

/-- C7: pause, then resume. From the running state (counter 0), with a
transport that reports `N ≥ 1` VCPUs, then delivers `N` pause confirmations
`evs` and lets the pause-all request and every wait, pop and reply succeed:
`kvm_pause_vm` succeeds and sets the counter to `N`; `kvm_resume_vm` then
returns `VMI_SUCCESS` with the counter at 0, has popped exactly the `N`
events, and the trace shows, event by event in arrival order, the wait, the
pop, the continue reply and the release, before the wait of the next event.
On the way the loop stands, after `j` events, in the state whose counter is
`N - j`: one decrement per event. -/
theorem pause_then_resume_drains (K : KvmiConsts) (vmi : vmi_instance)
    (evs rest : List kvmi_dom_event)
    (hrun : vmi.expected_pause_count = 0)
    (hN : 1 ≤ vmi.kvmi_dom.vcpu_count) (h32 : vmi.kvmi_dom.vcpu_count < 4294967296)
    (hq : vmi.kvmi_dom.queue = evs ++ rest) (hlen : evs.length = vmi.kvmi_dom.vcpu_count)
    (hev : ∀ e ∈ evs, e.event = K.KVMI_EVENT_PAUSE_VCPU)
    (hscript : ∀ i < 1 + 3 * vmi.kvmi_dom.vcpu_count, vmi.kvmi_dom.script i = 0) :
    (kvm_pause_vm vmi).1 = VMI_SUCCESS ∧
    (kvm_pause_vm vmi).2.expected_pause_count = vmi.kvmi_dom.vcpu_count ∧
    (∃ vmi', kvm_resume_vm K (kvm_pause_vm vmi).2 = some (VMI_SUCCESS, vmi') ∧
      vmi'.expected_pause_count = 0 ∧
      vmi'.kvmi_dom.queue = rest ∧
      vmi'.kvmi_dom.trace
        = vmi.kvmi_dom.trace ++ Effect.pause_all_vcpus :: evs.flatMap (drain_effects K)) ∧
    (∀ j ≤ vmi.kvmi_dom.vcpu_count,
      kvm_resume_vm K (kvm_pause_vm vmi).2
        = kvm_resume_loop K (vmi.kvmi_dom.vcpu_count - j)
            (after_confirmations K (kvm_pause_vm vmi).2 j) ∧
      (after_confirmations K (kvm_pause_vm vmi).2 j).expected_pause_count
        = vmi.kvmi_dom.vcpu_count - j) := by
  have hp : kvm_pause_vm vmi = (VMI_SUCCESS,
      { vmi with expected_pause_count := vmi.kvmi_dom.vcpu_count,
                 kvmi_dom := vmi.kvmi_dom.request .pause_all_vcpus }) := by
    simp [kvm_pause_vm, hrun, kvmi_pause_all_vcpus, hscript 0 (by omega)]
  have hdrain : ∀ j ≤ vmi.kvmi_dom.vcpu_count,
      kvm_resume_vm K (kvm_pause_vm vmi).2
        = kvm_resume_loop K (vmi.kvmi_dom.vcpu_count - j)
            (after_confirmations K (kvm_pause_vm vmi).2 j) := by
    intro j hj
    rw [kvm_resume_vm_eq_loop, hp]
    refine kvm_resume_loop_drain K j _ _ hj hj h32 ?_ ?_ ?_
    · simp only [KvmiDom.request, hq, List.length_append]
      omega
    · intro e he
      simp only [KvmiDom.request, hq] at he
      apply hev e
      rw [List.take_append_of_le_length (by omega)] at he
      exact List.mem_of_mem_take he
    · intro i hi
      simp only [KvmiDom.request]
      exact hscript (i + 1) (by omega)
  refine ⟨by rw [hp], by rw [hp], ?_, fun j hj => ⟨hdrain j hj, by rw [hp]; rfl⟩⟩
  refine ⟨after_confirmations K (kvm_pause_vm vmi).2 vmi.kvmi_dom.vcpu_count, ?_, ?_, ?_, ?_⟩
  · rw [hdrain _ (Nat.le_refl _)]
    apply kvm_resume_loop_done
    rw [hp]
    simp [after_confirmations]
  · rw [hp]
    simp [after_confirmations]
  · rw [hp]
    simp only [after_confirmations, KvmiDom.request, hq]
    rw [← hlen, List.drop_left]
  · rw [hp]
    simp only [after_confirmations, KvmiDom.request, hq]
    rw [← hlen, List.take_left]
    simp

/-- C7, at a concrete input: four VCPUs and four pause confirmations. -/
theorem pause_then_resume_drains_witness :
    ∃ vmi', kvm_resume_vm exampleConsts
        (kvm_pause_vm (exampleVmi true 0 (fun _ => 0)
          [exampleEvent 11 10 0, exampleEvent 12 10 2, exampleEvent 13 10 1, exampleEvent 14 10 3])).2
        = some (VMI_SUCCESS, vmi') ∧
      vmi'.expected_pause_count = 0 ∧
      vmi'.kvmi_dom.queue = [] ∧
      vmi'.kvmi_dom.trace
        = [] ++ Effect.pause_all_vcpus ::
            [exampleEvent 11 10 0, exampleEvent 12 10 2, exampleEvent 13 10 1, exampleEvent 14 10 3].flatMap
              (drain_effects exampleConsts) :=
  (pause_then_resume_drains exampleConsts
    (exampleVmi true 0 (fun _ => 0) [exampleEvent 11 10 0, exampleEvent 12 10 2, exampleEvent 13 10 1, exampleEvent 14 10 3])
    [exampleEvent 11 10 0, exampleEvent 12 10 2, exampleEvent 13 10 1, exampleEvent 14 10 3] []
    rfl (by decide) (by decide) rfl rfl (by decide) (by decide)).2.2.1

/-! ## Resume on an unexpected event or on a timeout -/

/-- C8: an event of another type ends the drain. With the counter above 0,
let the transport deliver the confirmations `evs` (fewer than the counter
asks for) and then an event `bad` whose type is not pause-confirmation, all
waits, pops and replies up to the pop of `bad` succeeding. Then
`kvm_resume_vm` returns `VMI_FAILURE`; the counter was decremented for the
confirmations only, and after the pop of `bad` the trace holds nothing but
its release: no reply for it, no further wait and no further pop. -/
theorem resume_fails_on_unexpected_event (K : KvmiConsts) (vmi : vmi_instance)
    (evs rest : List kvmi_dom_event) (bad : kvmi_dom_event)
    (hlen : evs.length < vmi.expected_pause_count)
    (h32 : vmi.expected_pause_count < 4294967296)
    (hq : vmi.kvmi_dom.queue = evs ++ bad :: rest)
    (hev : ∀ e ∈ evs, e.event = K.KVMI_EVENT_PAUSE_VCPU)
    (hbad : bad.event ≠ K.KVMI_EVENT_PAUSE_VCPU)
    (hscript : ∀ i < 3 * evs.length + 2, vmi.kvmi_dom.script i = 0) :
    ∃ vmi', kvm_resume_vm K vmi = some (VMI_FAILURE, vmi') ∧
      vmi'.expected_pause_count = vmi.expected_pause_count - evs.length ∧
      vmi'.kvmi_dom.queue = rest ∧
      vmi'.kvmi_dom.trace
        = vmi.kvmi_dom.trace ++ evs.flatMap (drain_effects K)
            ++ [.wait_event 1000, .pop_event, .free bad] := by
  have hdrain := kvm_resume_loop_drain K evs.length vmi.expected_pause_count vmi
    (by omega) (by omega) h32 (by rw [hq, List.length_append]; omega)
    (by
      intro e he
      rw [hq, List.take_left] at he
      exact hev e he)
    (by
      intro i hi
      exact hscript i (by omega))
  obtain ⟨fuel, hfuel⟩ : ∃ f, vmi.expected_pause_count - evs.length = f + 1 :=
    ⟨vmi.expected_pause_count - evs.length - 1, by omega⟩
  rw [hfuel] at hdrain
  rw [kvm_resume_vm_eq_loop, hdrain]
  rw [kvm_resume_loop_unexpected K fuel _ bad rest
    (by simp only [after_confirmations]; omega)
    (by simp only [after_confirmations, hq, List.drop_left])
    hbad
    (by simpa [after_confirmations] using hscript (3 * evs.length) (by omega))
    (by
      have := hscript (3 * evs.length + 1) (by omega)
      simp only [after_confirmations]
      rw [← this]
      congr 1
      omega)]
  refine ⟨_, rfl, ?_, ?_, ?_⟩
  · simp [after_confirmations]
  · simp
  · simp only [after_confirmations, hq, List.take_left]

/-- C8, at a concrete input: the counter asks for two confirmations, the
transport delivers one confirmation and then an event of type 6. -/
theorem resume_fails_on_unexpected_event_witness :
    ∃ vmi', kvm_resume_vm exampleConsts
        (exampleVmi true 2 (fun _ => 0) [exampleEvent 11 10 0, exampleEvent 12 6 1, exampleEvent 13 10 1])
        = some (VMI_FAILURE, vmi') ∧
      vmi'.expected_pause_count = 2 - 1 ∧
      vmi'.kvmi_dom.queue = [exampleEvent 13 10 1] ∧
      vmi'.kvmi_dom.trace
        = [] ++ [exampleEvent 11 10 0].flatMap (drain_effects exampleConsts)
            ++ [.wait_event 1000, .pop_event, .free (exampleEvent 12 6 1)] :=
  resume_fails_on_unexpected_event exampleConsts
    (exampleVmi true 2 (fun _ => 0) [exampleEvent 11 10 0, exampleEvent 12 6 1, exampleEvent 13 10 1])
    [exampleEvent 11 10 0] [exampleEvent 13 10 1] (exampleEvent 12 6 1)
    (by decide) (by decide) rfl (by decide) (by decide) (by decide)

/-- C9 (as stated, refuted): the counter asks for one confirmation, the
first one-second wait ends with a timeout and the confirmation would be
there for the next wait. `kvm_resume_vm` returns `VMI_FAILURE` after that
single wait: it is not retried, and the result is not `VMI_SUCCESS`. -/
theorem resume_does_not_retry_timeout :
    (exampleVmi true 1 (fun i => if i = 0 then ETIMEDOUT else 0)
      [exampleEvent 11 10 0]).kvmi_dom.queue = [exampleEvent 11 exampleConsts.KVMI_EVENT_PAUSE_VCPU 0] ∧
    (kvm_resume_vm exampleConsts
      (exampleVmi true 1 (fun i => if i = 0 then ETIMEDOUT else 0) [exampleEvent 11 10 0])).map
        Prod.fst = some VMI_FAILURE ∧
    (kvm_resume_vm exampleConsts
      (exampleVmi true 1 (fun i => if i = 0 then ETIMEDOUT else 0) [exampleEvent 11 10 0])).map
        Prod.fst ≠ some VMI_SUCCESS ∧
    (kvm_resume_vm exampleConsts
      (exampleVmi true 1 (fun i => if i = 0 then ETIMEDOUT else 0) [exampleEvent 11 10 0])).map
        (fun r => (r.2.expected_pause_count, r.2.kvmi_dom.errno, r.2.kvmi_dom.trace))
      = some (1, ETIMEDOUT, [.wait_event 1000]) := by
  decide

/-- C9 (amended): a wait slice that ends with a timeout ends the drain. With
the counter above 0, let the transport deliver the confirmations `evs`
(fewer than the counter asks for) with successful waits, pops and replies,
and let the next wait end with a timeout, because no event is left or
because the next event comes too late. Then `kvm_resume_vm` returns
`VMI_FAILURE` with `errno` at `ETIMEDOUT`; that wait is the last effect of
the call (no second wait, no pop), and the counter keeps the number of
confirmations still outstanding. -/
theorem resume_fails_on_wait_timeout (K : KvmiConsts) (vmi : vmi_instance)
    (evs rest : List kvmi_dom_event)
    (hlen : evs.length < vmi.expected_pause_count)
    (h32 : vmi.expected_pause_count < 4294967296)
    (hq : vmi.kvmi_dom.queue = evs ++ rest)
    (hev : ∀ e ∈ evs, e.event = K.KVMI_EVENT_PAUSE_VCPU)
    (hscript : ∀ i < 3 * evs.length, vmi.kvmi_dom.script i = 0)
    (htimeout : rest = [] ∨ vmi.kvmi_dom.script (3 * evs.length) = ETIMEDOUT) :
    ∃ vmi', kvm_resume_vm K vmi = some (VMI_FAILURE, vmi') ∧
      vmi'.expected_pause_count = vmi.expected_pause_count - evs.length ∧
      vmi'.kvmi_dom.errno = ETIMEDOUT ∧
      vmi'.kvmi_dom.queue = rest ∧
      vmi'.kvmi_dom.trace
        = vmi.kvmi_dom.trace ++ evs.flatMap (drain_effects K) ++ [.wait_event 1000] := by
  have hdrain := kvm_resume_loop_drain K evs.length vmi.expected_pause_count vmi
    (by omega) (by omega) h32 (by rw [hq, List.length_append]; omega)
    (by
      intro e he
      rw [hq, List.take_left] at he
      exact hev e he)
    hscript
  obtain ⟨fuel, hfuel⟩ : ∃ f, vmi.expected_pause_count - evs.length = f + 1 :=
    ⟨vmi.expected_pause_count - evs.length - 1, by omega⟩
  rw [hfuel] at hdrain
  rw [kvm_resume_vm_eq_loop, hdrain]
  rw [kvm_resume_loop_timeout K fuel _ (by simp only [after_confirmations]; omega)
    (by
      rcases htimeout with h | h
      · left
        simp only [after_confirmations, hq, List.drop_left, h]
      · right
        simpa [after_confirmations] using h)]
  refine ⟨_, rfl, ?_, rfl, ?_, ?_⟩
  · simp [after_confirmations]
  · simp only [after_confirmations, hq, List.drop_left]
  · simp only [after_confirmations, hq, List.take_left]

/-- C9 (amended), at a concrete input: the counter asks for two
confirmations, one arrives, then the wait times out. -/
theorem resume_fails_on_wait_timeout_witness :
    ∃ vmi', kvm_resume_vm exampleConsts
        (exampleVmi true 2 (fun i => if i = 3 then ETIMEDOUT else 0)
          [exampleEvent 11 10 0, exampleEvent 12 10 1])
        = some (VMI_FAILURE, vmi') ∧
      vmi'.expected_pause_count = 2 - 1 ∧
      vmi'.kvmi_dom.errno = ETIMEDOUT ∧
      vmi'.kvmi_dom.queue = [exampleEvent 12 10 1] ∧
      vmi'.kvmi_dom.trace
        = [] ++ [exampleEvent 11 10 0].flatMap (drain_effects exampleConsts)
            ++ [.wait_event 1000] :=
  resume_fails_on_wait_timeout exampleConsts
    (exampleVmi true 2 (fun i => if i = 3 then ETIMEDOUT else 0) [exampleEvent 11 10 0, exampleEvent 12 10 1])
    [exampleEvent 11 10 0] [exampleEvent 12 10 1]
    (by decide) (by decide) rfl (by decide) (by decide) (Or.inr (by decide))

/-! ## Resume while running -/

/-- C11: with `expected_pause_count = 0`, `kvm_resume_vm` returns
`VMI_SUCCESS` and the whole driver state, the transport with its queue and
its trace included, is as before: no wait, no pop, no reply. -/
theorem resume_vm_noop_when_running (K : KvmiConsts) (vmi : vmi_instance)
    (h : vmi.expected_pause_count = 0) :
    kvm_resume_vm K vmi = some (VMI_SUCCESS, vmi) := by
  simp [kvm_resume_vm, h]

/-- C11, at a concrete input: a running four-VCPU driver with an event in
the queue. -/
theorem resume_vm_noop_when_running_witness :
    kvm_resume_vm exampleConsts (exampleVmi true 0 (fun _ => 0) [exampleEvent 11 10 0])
      = some (VMI_SUCCESS, exampleVmi true 0 (fun _ => 0) [exampleEvent 11 10 0]) :=
  resume_vm_noop_when_running exampleConsts
    (exampleVmi true 0 (fun _ => 0) [exampleEvent 11 10 0]) rfl

/-! ## The event dispatcher -/

theorem wait_pop_ok (d : KvmiDom) (timeout : Nat) (event : kvmi_dom_event)
    (rest : List kvmi_dom_event) (hq : d.queue = event :: rest)
    (h0 : d.script 0 = 0) (h1 : d.script 1 = 0) :
    kvmi_wait_event d timeout = (0, d.request (.wait_event timeout)) ∧
    kvmi_pop_event (d.request (.wait_event timeout)) = (0, some event, popped d timeout) := by
  constructor
  · simp [kvmi_wait_event, hq, h0]
  · simp [kvmi_pop_event, KvmiDom.request, hq, h0, h1, popped]

theorem kvm_events_listen_dispatch (K : KvmiConsts) (process_event : Nat → Option event_handler)
    (vmi : vmi_instance) (timeout : Nat) (event : kvmi_dom_event)
    (rest : List kvmi_dom_event) (hq : vmi.kvmi_dom.queue = event :: rest)
    (h0 : vmi.kvmi_dom.script 0 = 0) (h1 : vmi.kvmi_dom.script 1 = 0) :
    kvm_events_listen K process_event vmi timeout
      = match (if K.KVMI_NUM_EVENTS ≤ event.event then none else process_event event.event) with
        | none => (VMI_FAILURE, { vmi with kvmi_dom := popped vmi.kvmi_dom timeout })
        | some handler =>
          if (handler { vmi with kvmi_dom := popped vmi.kvmi_dom timeout } event).1
              = VMI_FAILURE then
            (VMI_FAILURE,
              { (handler { vmi with kvmi_dom := popped vmi.kvmi_dom timeout } event).2 with
                kvmi_dom :=
                  (handler { vmi with kvmi_dom := popped vmi.kvmi_dom timeout }
                    event).2.kvmi_dom.log (.free event) })
          else if (reply_continue K
              (handler { vmi with kvmi_dom := popped vmi.kvmi_dom timeout } event).2.kvmi_dom
              event).1 = VMI_FAILURE then
            (VMI_FAILURE,
              { (handler { vmi with kvmi_dom := popped vmi.kvmi_dom timeout } event).2 with
                kvmi_dom := (reply_continue K
                  (handler { vmi with kvmi_dom := popped vmi.kvmi_dom timeout }
                    event).2.kvmi_dom event).2.log (.free event) })
          else
            (VMI_SUCCESS,
              { (handler { vmi with kvmi_dom := popped vmi.kvmi_dom timeout } event).2 with
                kvmi_dom := (reply_continue K
                  (handler { vmi with kvmi_dom := popped vmi.kvmi_dom timeout }
                    event).2.kvmi_dom event).2 }) := by
  obtain ⟨hw, hp⟩ := wait_pop_ok vmi.kvmi_dom timeout event rest hq h0 h1
  unfold kvm_events_listen
  simp only [hw, hp]
  simp

theorem kvm_events_listen_no_handler (K : KvmiConsts)
    (process_event : Nat → Option event_handler)
    (vmi : vmi_instance) (timeout : Nat) (event : kvmi_dom_event)
    (rest : List kvmi_dom_event) (hq : vmi.kvmi_dom.queue = event :: rest)
    (h0 : vmi.kvmi_dom.script 0 = 0) (h1 : vmi.kvmi_dom.script 1 = 0)
    (hnone : K.KVMI_NUM_EVENTS ≤ event.event ∨ process_event event.event = none) :
    kvm_events_listen K process_event vmi timeout
      = (VMI_FAILURE, { vmi with kvmi_dom := popped vmi.kvmi_dom timeout }) := by
  rw [kvm_events_listen_dispatch K process_event vmi timeout event rest hq h0 h1]
  rcases hnone with h | h
  · simp [h]
  · by_cases hn : K.KVMI_NUM_EVENTS ≤ event.event
    · simp [hn]
    · simp [hn, h]

/-- C13 (the code at a failing input): a page-fault event reaches a driver
that was initialised without event support, and a model-specific-register
event (type 2, never registered) reaches a driver initialised with event
support. In both cases `kvm_events_listen` returns `VMI_FAILURE`, calls no
callback and sends no reply, and the trace of the call ends with the pop:
the popped event is not released. -/
theorem events_listen_leaks_event_without_handler :
    ((kvm_events_listen exampleConsts (kvm_init_vmi_process_event exampleConsts 0)
        (exampleVmi true 0 (fun _ => 0) [exampleEvent 21 6 0]) 100).1 = VMI_FAILURE ∧
      (kvm_events_listen exampleConsts (kvm_init_vmi_process_event exampleConsts 0)
        (exampleVmi true 0 (fun _ => 0) [exampleEvent 21 6 0]) 100).2.kvmi_dom.trace
        = [.wait_event 100, .pop_event] ∧
      (kvm_events_listen exampleConsts (kvm_init_vmi_process_event exampleConsts 0)
        (exampleVmi true 0 (fun _ => 0) [exampleEvent 21 6 0]) 100).2.callbacks = []) ∧
    ((kvm_events_listen exampleConsts
        (kvm_init_vmi_process_event exampleConsts VMI_INIT_EVENTS)
        (exampleVmi true 0 (fun _ => 0) [exampleEvent 22 2 0]) 100).1 = VMI_FAILURE ∧
      (kvm_events_listen exampleConsts
        (kvm_init_vmi_process_event exampleConsts VMI_INIT_EVENTS)
        (exampleVmi true 0 (fun _ => 0) [exampleEvent 22 2 0]) 100).2.kvmi_dom.trace
        = [.wait_event 100, .pop_event] ∧
      (kvm_events_listen exampleConsts
        (kvm_init_vmi_process_event exampleConsts VMI_INIT_EVENTS)
        (exampleVmi true 0 (fun _ => 0) [exampleEvent 22 2 0]) 100).2.callbacks = []) := by
  decide

/-- C14 (the code at a failing input): a control-register event reaches a
driver initialised with event support; the handler succeeds and the reply
is sent. `kvm_events_listen` returns `VMI_SUCCESS` and the trace of the call
ends with the reply: the popped event is not released. A pause
confirmation drained by `kvm_resume_vm` is released after its reply (the
trace ends with `free`). -/
theorem events_listen_leaks_event_on_success :
    (kvm_events_listen exampleConsts
      (kvm_init_vmi_process_event exampleConsts VMI_INIT_EVENTS)
      (exampleVmi true 0 (fun _ => 0) [exampleEvent 21 1 0]) 100).1 = VMI_SUCCESS ∧
    (kvm_events_listen exampleConsts
      (kvm_init_vmi_process_event exampleConsts VMI_INIT_EVENTS)
      (exampleVmi true 0 (fun _ => 0) [exampleEvent 21 1 0]) 100).2.kvmi_dom.trace
      = [.wait_event 100, .pop_event, .reply_event 21 0 1] ∧
    (kvm_resume_vm exampleConsts
      (exampleVmi true 1 (fun _ => 0) [exampleEvent 21 10 0])).map
        (fun r => (r.1, r.2.kvmi_dom.trace))
      = some (VMI_SUCCESS,
          [.wait_event 1000, .pop_event, .reply_event 21 0 10,
           .free (exampleEvent 21 10 0)]) := by
  decide

/-- C15: a handler that fails ends the call. When the wait and the pop
succeed, the popped event has a handler and the handler returns
`VMI_FAILURE`, `kvm_events_listen` returns `VMI_FAILURE`, and all it does
after the handler is to release the event: no reply is sent and no further
event is waited for or popped. (`popped` is the transport after the one wait
and the one pop; `vmi2` is the state the handler leaves.) For a handler that
leaves the transport alone, as the four handlers of the driver do, the
trace of the whole call is the wait, the pop and the release. -/
theorem events_listen_aborts_on_handler_failure (K : KvmiConsts)
    (process_event : Nat → Option event_handler)
    (vmi vmi2 : vmi_instance) (timeout : Nat) (event : kvmi_dom_event)
    (rest : List kvmi_dom_event) (handler : event_handler)
    (hq : vmi.kvmi_dom.queue = event :: rest)
    (h0 : vmi.kvmi_dom.script 0 = 0) (h1 : vmi.kvmi_dom.script 1 = 0)
    (hnum : event.event < K.KVMI_NUM_EVENTS)
    (hhandler : process_event event.event = some handler)
    (hfail : handler { vmi with kvmi_dom := popped vmi.kvmi_dom timeout } event
      = (VMI_FAILURE, vmi2)) :
    kvm_events_listen K process_event vmi timeout
      = (VMI_FAILURE, { vmi2 with kvmi_dom := vmi2.kvmi_dom.log (.free event) }) ∧
    (popped vmi.kvmi_dom timeout).trace
      = vmi.kvmi_dom.trace ++ [.wait_event timeout, .pop_event] ∧
    (kvm_events_listen K process_event vmi timeout).2.kvmi_dom.trace
      = vmi2.kvmi_dom.trace ++ [.free event] ∧
    (vmi2.kvmi_dom = popped vmi.kvmi_dom timeout →
      (kvm_events_listen K process_event vmi timeout).2.kvmi_dom.trace
        = vmi.kvmi_dom.trace ++ [.wait_event timeout, .pop_event, .free event]) := by
  have hlt : ¬ K.KVMI_NUM_EVENTS ≤ event.event := by omega
  have hres : kvm_events_listen K process_event vmi timeout
      = (VMI_FAILURE, { vmi2 with kvmi_dom := vmi2.kvmi_dom.log (.free event) }) := by
    rw [kvm_events_listen_dispatch K process_event vmi timeout event rest hq h0 h1]
    simp [hlt, hhandler, hfail]
  refine ⟨hres, rfl, ?_, ?_⟩
  · rw [hres]
    rfl
  · intro hdom
    rw [hres]
    simp [KvmiDom.log, hdom, popped]

/-- C15, at concrete inputs: a pause confirmation seen by the dispatcher,
and a page fault that no watcher matches. In both cases the trace of the
call is the wait, the pop and the release of the event. -/
theorem events_listen_aborts_on_handler_failure_witness :
    (kvm_events_listen exampleConsts
      (kvm_init_vmi_process_event exampleConsts VMI_INIT_EVENTS)
      (exampleVmi true 0 (fun _ => 0) [exampleEvent 21 10 0, exampleEvent 22 10 1]) 100
      = (VMI_FAILURE,
          { exampleVmi true 0 (fun _ => 0) [exampleEvent 21 10 0, exampleEvent 22 10 1] with
            kvmi_dom := (popped (exampleVmi true 0 (fun _ => 0)
              [exampleEvent 21 10 0, exampleEvent 22 10 1]).kvmi_dom 100).log
                (.free (exampleEvent 21 10 0)) })) ∧
    (kvm_events_listen exampleConsts
      (kvm_init_vmi_process_event exampleConsts VMI_INIT_EVENTS)
      (exampleVmi true 0 (fun _ => 0) [exampleEvent 23 6 0]) 100).2.kvmi_dom.trace
      = [] ++ [.wait_event 100, .pop_event, .free (exampleEvent 23 6 0)] :=
  ⟨(events_listen_aborts_on_handler_failure exampleConsts
      (kvm_init_vmi_process_event exampleConsts VMI_INIT_EVENTS)
      (exampleVmi true 0 (fun _ => 0) [exampleEvent 21 10 0, exampleEvent 22 10 1]) _ 100
      (exampleEvent 21 10 0) [exampleEvent 22 10 1] process_pause_event
      rfl rfl rfl (by decide) rfl rfl).1,
   (events_listen_aborts_on_handler_failure exampleConsts
      (kvm_init_vmi_process_event exampleConsts VMI_INIT_EVENTS)
      (exampleVmi true 0 (fun _ => 0) [exampleEvent 23 6 0]) _ 100
      (exampleEvent 23 6 0) [] process_pagefault
      rfl rfl rfl (by decide) rfl rfl).2.2.2 rfl⟩

/-- C16: a handler that succeeds is followed by exactly one reply. When the
wait and the pop succeed, the popped event has a handler and the handler
returns `VMI_SUCCESS` leaving the state `vmi2` (whatever the callbacks did
to it), `kvm_events_listen` sends one reply, with the action "continue",
the sequence number of the popped event and its type; if the reply fails
the event is released; nothing else is added to the trace. The call returns
`VMI_SUCCESS` if and only if that reply succeeds. For a handler that leaves
the transport alone, as the four handlers of the driver do, the trace of
the whole call is the wait, the pop and the reply (and the release if the
reply fails). -/
theorem events_listen_replies_continue (K : KvmiConsts)
    (process_event : Nat → Option event_handler)
    (vmi vmi2 : vmi_instance) (timeout : Nat) (event : kvmi_dom_event)
    (rest : List kvmi_dom_event) (handler : event_handler)
    (hq : vmi.kvmi_dom.queue = event :: rest)
    (h0 : vmi.kvmi_dom.script 0 = 0) (h1 : vmi.kvmi_dom.script 1 = 0)
    (hnum : event.event < K.KVMI_NUM_EVENTS)
    (hhandler : process_event event.event = some handler)
    (hok : handler { vmi with kvmi_dom := popped vmi.kvmi_dom timeout } event
      = (VMI_SUCCESS, vmi2)) :
    (kvm_events_listen K process_event vmi timeout).2.kvmi_dom.trace
      = vmi2.kvmi_dom.trace
          ++ [.reply_event event.seq K.KVMI_EVENT_ACTION_CONTINUE event.event]
          ++ (if vmi2.kvmi_dom.script 0 = 0 then [] else [.free event]) ∧
    ((kvm_events_listen K process_event vmi timeout).1 = VMI_SUCCESS
      ↔ vmi2.kvmi_dom.script 0 = 0) ∧
    (kvm_events_listen K process_event vmi timeout).2.callbacks = vmi2.callbacks ∧
    (vmi2.kvmi_dom = popped vmi.kvmi_dom timeout →
      (kvm_events_listen K process_event vmi timeout).2.kvmi_dom.trace
        = vmi.kvmi_dom.trace
            ++ [.wait_event timeout, .pop_event,
                .reply_event event.seq K.KVMI_EVENT_ACTION_CONTINUE event.event]
            ++ (if vmi.kvmi_dom.script 2 = 0 then [] else [.free event])) := by
  have hlt : ¬ K.KVMI_NUM_EVENTS ≤ event.event := by omega
  have hmain :
      (kvm_events_listen K process_event vmi timeout).2.kvmi_dom.trace
        = vmi2.kvmi_dom.trace
            ++ [.reply_event event.seq K.KVMI_EVENT_ACTION_CONTINUE event.event]
            ++ (if vmi2.kvmi_dom.script 0 = 0 then [] else [.free event]) ∧
      ((kvm_events_listen K process_event vmi timeout).1 = VMI_SUCCESS
        ↔ vmi2.kvmi_dom.script 0 = 0) ∧
      (kvm_events_listen K process_event vmi timeout).2.callbacks = vmi2.callbacks := by
    rw [kvm_events_listen_dispatch K process_event vmi timeout event rest hq h0 h1]
    by_cases hs : vmi2.kvmi_dom.script 0 = 0
    · simp [hlt, hhandler, hok, reply_continue, kvmi_reply_event, hs, KvmiDom.request]
    · simp [hlt, hhandler, hok, reply_continue, kvmi_reply_event, hs, KvmiDom.request,
        KvmiDom.log]
  refine ⟨hmain.1, hmain.2.1, hmain.2.2, ?_⟩
  intro hdom
  rw [hmain.1, hdom]
  simp [popped]

/-- C16, at a concrete input: a control-register event with sequence number
21 on a driver initialised with event support. -/
theorem events_listen_replies_continue_witness :
    (kvm_events_listen exampleConsts
      (kvm_init_vmi_process_event exampleConsts VMI_INIT_EVENTS)
      (exampleVmi true 0 (fun _ => 0) [exampleEvent 21 1 0]) 100).2.kvmi_dom.trace
      = [] ++ [.wait_event 100, .pop_event,
                .reply_event 21 exampleConsts.KVMI_EVENT_ACTION_CONTINUE 1]
          ++ [] :=
  (events_listen_replies_continue exampleConsts
    (kvm_init_vmi_process_event exampleConsts VMI_INIT_EVENTS)
    (exampleVmi true 0 (fun _ => 0) [exampleEvent 21 1 0]) _ 100
    (exampleEvent 21 1 0) [] process_register
    rfl rfl rfl (by decide) rfl rfl).2.2.2 rfl

/-! ## Page faults and the generic watchers -/

theorem generic_loop_spec (kvmi_event : kvmi_dom_event) (out_access : Nat)
    (table : List (Nat × vmi_event_t)) :
    ∀ (vmi : vmi_instance) (cb_issued : Bool),
      (generic_loop kvmi_event out_access table vmi cb_issued).2.callbacks
        = vmi.callbacks
            ++ (table.filter (fun w => decide (w.1 &&& out_access ≠ 0))).map
                (fun w => fill_mem_event kvmi_event out_access w.2) ∧
      (generic_loop kvmi_event out_access table vmi cb_issued).1
        = (cb_issued || table.any (fun w => decide (w.1 &&& out_access ≠ 0))) := by
  induction table with
  | nil => intro vmi cb_issued; simp [generic_loop]
  | cons w rest ih =>
    intro vmi cb_issued
    obtain ⟨key, libvmi_event⟩ := w
    by_cases hk : key &&& out_access = 0
    · simp only [generic_loop, hk, ne_eq, not_true_eq_false, if_false]
      obtain ⟨h1, h2⟩ := ih vmi cb_issued
      simp [h1, h2, hk]
    · simp only [generic_loop, hk, ne_eq, not_false_eq_true, if_true]
      obtain ⟨h1, h2⟩ := ih
        (call_event_callback vmi (fill_mem_event kvmi_event out_access libvmi_event)) true
      refine ⟨?_, ?_⟩
      · rw [h1]
        simp [call_event_callback, List.filter_cons, hk]
      · rw [h2]
        simp [hk]

theorem process_pagefault_generic_spec (vmi : vmi_instance) (kvmi_event : kvmi_dom_event)
    (out_access : Nat) :
    (process_pagefault_generic vmi kvmi_event out_access).2.callbacks
      = vmi.callbacks
          ++ (vmi.mem_events_generic.filter (fun w => decide (w.1 &&& out_access ≠ 0))).map
              (fun w => fill_mem_event kvmi_event out_access w.2) ∧
    ((process_pagefault_generic vmi kvmi_event out_access).1 = VMI_SUCCESS
      ↔ ∃ w ∈ vmi.mem_events_generic, w.1 &&& out_access ≠ 0) := by
  unfold process_pagefault_generic
  by_cases hlen : vmi.mem_events_generic.length = 0
  · have hnil : vmi.mem_events_generic = [] := List.length_eq_zero.mp hlen
    simp [hnil]
  · obtain ⟨h1, h2⟩ := generic_loop_spec kvmi_event out_access vmi.mem_events_generic vmi false
    simp only [hlen, ne_eq, not_false_eq_true, if_true]
    cases hany : vmi.mem_events_generic.any (fun w => decide (w.1 &&& out_access ≠ 0)) with
    | true =>
      rw [hany] at h2
      simp only [Bool.false_or] at h2
      simp only [h2, if_true, true_iff]
      refine ⟨h1, ?_⟩
      simpa using hany
    | false =>
      rw [hany] at h2
      simp only [Bool.false_or] at h2
      simp only [h2, Bool.false_eq_true, if_false]
      refine ⟨h1, ?_⟩
      constructor
      · intro h; cases h
      · intro hex
        have : vmi.mem_events_generic.any (fun w => decide (w.1 &&& out_access ≠ 0)) = true := by
          simpa using hex
        rw [hany] at this
        cases this

theorem process_pagefault_no_exact (vmi : vmi_instance) (kvmi_event : kvmi_dom_event)
    (hexact : ∀ libvmi_event,
      g_hash_table_lookup vmi.mem_events_on_gfn (kvmi_event.page_fault_gpa >>> 12)
        = some libvmi_event →
      libvmi_event.mem_event.in_access &&& build_out_access kvmi_event.page_fault_mode = 0) :
    process_pagefault vmi kvmi_event
      = process_pagefault_generic vmi kvmi_event
          (build_out_access kvmi_event.page_fault_mode) := by
  unfold process_pagefault
  simp only []
  split_ifs with hlen
  · split
    · rename_i libvmi_event hlook
      simp [hexact libvmi_event hlook]
    · rfl
  · rfl

/-- C17: the generic watchers as fallback. For a page-fault event that no
exact-frame watcher matches (the lookup of the faulting frame finds no
watcher, or finds one whose filter does not intersect the observed access),
`process_pagefault` calls the callback of every generic watcher whose access
mask intersects the observed access, once each in the order of the table,
with the event filled in, and no other callback; it returns `VMI_SUCCESS` if
and only if there is such a generic watcher; if there is none it returns
`VMI_FAILURE` and has called no callback. -/
theorem pagefault_falls_back_to_generic (vmi : vmi_instance) (kvmi_event : kvmi_dom_event)
    (hexact : ∀ libvmi_event,
      g_hash_table_lookup vmi.mem_events_on_gfn (kvmi_event.page_fault_gpa >>> 12)
        = some libvmi_event →
      libvmi_event.mem_event.in_access &&& build_out_access kvmi_event.page_fault_mode = 0) :
    (process_pagefault vmi kvmi_event).2.callbacks
      = vmi.callbacks
          ++ (vmi.mem_events_generic.filter
                (fun w => decide (w.1 &&& build_out_access kvmi_event.page_fault_mode ≠ 0))).map
              (fun w => fill_mem_event kvmi_event
                (build_out_access kvmi_event.page_fault_mode) w.2) ∧
    ((process_pagefault vmi kvmi_event).1 = VMI_SUCCESS
      ↔ ∃ w ∈ vmi.mem_events_generic,
          w.1 &&& build_out_access kvmi_event.page_fault_mode ≠ 0) ∧
    ((∀ w ∈ vmi.mem_events_generic,
        w.1 &&& build_out_access kvmi_event.page_fault_mode = 0) →
      (process_pagefault vmi kvmi_event).1 = VMI_FAILURE ∧
      (process_pagefault vmi kvmi_event).2.callbacks = vmi.callbacks) := by
  rw [process_pagefault_no_exact vmi kvmi_event hexact]
  obtain ⟨h1, h2⟩ := process_pagefault_generic_spec vmi kvmi_event
    (build_out_access kvmi_event.page_fault_mode)
  refine ⟨h1, h2, ?_⟩
  intro hnone
  constructor
  · cases hst : (process_pagefault_generic vmi kvmi_event
        (build_out_access kvmi_event.page_fault_mode)).1 with
    | VMI_FAILURE => rfl
    | VMI_SUCCESS =>
      obtain ⟨w, hw, hne⟩ := h2.mp hst
      exact absurd (hnone w hw) hne
  · rw [h1]
    have : vmi.mem_events_generic.filter
        (fun w => decide (w.1 &&& build_out_access kvmi_event.page_fault_mode ≠ 0)) = [] := by
      rw [List.filter_eq_nil_iff]
      intro w hw
      simp [hnone w hw]
    rw [this]
    simp

/-- C17, at a concrete input: a write fault in frame 5; the exact-frame
watcher of frame 5 asks for execute accesses only, the generic watchers 2
(write) and 4 (read-write) are called, the generic watcher 3 (execute) is
not. -/
theorem pagefault_falls_back_to_generic_witness :
    ((process_pagefault (exampleWatchers (exampleVmi true 0 (fun _ => 0) []))
        examplePageFault).2.callbacks.map (fun e => (e.callback, e.mem_event.out_access))
      = [(2, VMI_MEMACCESS_W), (4, VMI_MEMACCESS_W)]) ∧
    (process_pagefault (exampleWatchers (exampleVmi true 0 (fun _ => 0) []))
        examplePageFault).1 = VMI_SUCCESS := by
  have h := pagefault_falls_back_to_generic
    (exampleWatchers (exampleVmi true 0 (fun _ => 0) [])) examplePageFault
    (by
      intro libvmi_event hlook
      have h2 : some ({ callback := 1, mem_event := { in_access := VMI_MEMACCESS_X } } :
          vmi_event_t) = some libvmi_event := hlook
      cases h2
      decide)
  refine ⟨?_, h.2.1.mpr
    ⟨(VMI_MEMACCESS_W, { callback := 2, mem_event := { in_access := VMI_MEMACCESS_W } }),
      by decide, by decide⟩⟩
  rw [h.1]
  decide

/-! ## The table of model-specific registers -/

/-- C18: the table covers what the driver itself asks for. Each identifier
that `kvm_get_vcpuregs` and `get_kvmi_registers` translate is recognised
(`err` is 0) and gets its hardware index: 0x174, 0x175, 0x176 for the
SYSENTER registers, 0xc0000080 for EFER, 0xc0000081 for STAR, 0xc0000082 for
LSTAR. The register number that `kvm_set_reg_access` hands to the transport
for `MSR_STAR` is the index that `translate_msr_index` gives. -/
theorem msr_table_covers_driver_use :
    kvm_get_vcpuregs_entries
      = [(0x174, 0), (0x175, 0), (0x176, 0), (0xc0000080, 0), (0xc0000081, 0),
         (0xc0000082, 0)] ∧
    get_kvmi_registers_entries = [(0xc0000080, 0), (0xc0000081, 0)] ∧
    translate_msr_index MSR_EFER = (0xc0000080, 0) ∧
    translate_msr_index MSR_STAR = (0xc0000081, 0) ∧
    translate_msr_index MSR_LSTAR = (0xc0000082, 0) ∧
    translate_msr_index MSR_IA32_SYSENTER_CS = (0x174, 0) ∧
    translate_msr_index MSR_IA32_SYSENTER_ESP = (0x175, 0) ∧
    translate_msr_index MSR_IA32_SYSENTER_EIP = (0x176, 0) ∧
    (∀ K : KvmiConsts,
      (set_reg_access_check_reg K MSR_STAR).map Prod.snd
        = some (translate_msr_index MSR_STAR).1) := by
  refine ⟨rfl, rfl, rfl, rfl, rfl, rfl, rfl, rfl, fun K => rfl⟩

/-! ## The connection manager -/

theorem closed_handles_append (t1 t2 : List ConnEffect) :
    closed_handles (t1 ++ t2) = closed_handles t1 ++ closed_handles t2 := by
  simp [closed_handles, List.filterMap_append]

theorem accept_all_stopped (doms : List Nat) (c : kvm_connection) (h : c.accepting = false) :
    accept_all c doms = c := by
  induction doms with
  | nil => rfl
  | cons dom rest ih =>
    simp only [accept_all, List.foldl_cons, h] at ih ⊢
    exact ih

theorem accept_all_running (doms : List Nat) : ∀ c : kvm_connection, c.accepting = true →
    accept_all c doms
      = { c with
          kvmi_dom := doms.foldl (fun _ dom => some dom) c.kvmi_dom
          trace := c.trace ++ callback_effects c.kvmi_dom doms } := by
  induction doms with
  | nil =>
    intro c _
    simp [accept_all, callback_effects]
  | cons dom rest ih =>
    intro c h
    have hstep : accept_all c (dom :: rest) = accept_all (cb_kvmi_connect c dom) rest := by
      simp only [accept_all, List.foldl_cons, h, if_true]
    have hacc : (cb_kvmi_connect c dom).accepting = true := by
      unfold cb_kvmi_connect
      cases hd : c.kvmi_dom <;> simp [kvmi_domain_close, h]
    rw [hstep, ih _ hacc]
    unfold cb_kvmi_connect
    cases hd : c.kvmi_dom <;> simp [kvmi_domain_close, callback_effects, hd]

theorem accept_all_append (c : kvm_connection) (xs ys : List Nat) :
    accept_all (accept_all c xs) ys = accept_all c (xs ++ ys) := by
  simp only [accept_all, List.foldl_append]

theorem foldl_last_accepted (doms : List Nat) :
    ∀ stored : Option Nat, doms ≠ [] →
      doms.foldl (fun _ dom => some dom) stored = doms.getLast? := by
  induction doms with
  | nil => intro _ h; exact absurd rfl h
  | cons dom rest ih =>
    intro stored _
    cases rest with
    | nil => rfl
    | cons d2 r2 =>
      rw [List.foldl_cons, ih _ (by simp), List.getLast?_cons_cons]

theorem closed_handles_callback_effects (doms : List Nat) :
    ∀ stored : Option Nat, doms ≠ [] →
      closed_handles (callback_effects stored doms) = stored.toList ++ doms.dropLast := by
  induction doms with
  | nil => intro _ h; exact absurd rfl h
  | cons dom rest ih =>
    intro stored _
    cases rest with
    | nil => cases stored <;> simp [callback_effects, closed_handles]
    | cons d2 r2 =>
      have := ih (some dom) (by simp)
      unfold callback_effects
      cases stored <;>
        simp [closed_handles, List.filterMap_append] at this ⊢ <;>
        exact this

theorem closed_handles_callbacks_from_null (doms : List Nat) :
    closed_handles (callback_effects none doms) = doms.dropLast := by
  cases doms with
  | nil => rfl
  | cons dom rest =>
    rw [closed_handles_callback_effects _ none (by simp)]
    rfl

/-- The connection when the caller of `init_kvmi` reaches `kvmi_uninit` on
the failure path: the trace has grown by what the accept callbacks did, and
the stored handle is the one of the last callback. -/
theorem before_uninit_spec (c : kvm_connection) (socket_ok gettimeofday_ok : Bool)
    (during late : List Nat) :
    (before_uninit c socket_ok gettimeofday_ok during late).trace
      = c.trace
          ++ callback_effects none (accepted_handles c socket_ok gettimeofday_ok during late) ∧
    (before_uninit c socket_ok gettimeofday_ok during late).kvmi_dom
      = (accepted_handles c socket_ok gettimeofday_ok during late).getLast? := by
  have hpre : before_uninit c socket_ok gettimeofday_ok during late
      = accept_all (init_kvmi_start c socket_ok)
          ((if socket_ok && gettimeofday_ok then during else []) ++ late) := by
    unfold before_uninit
    by_cases hw : (socket_ok && gettimeofday_ok) = true
    · rw [if_pos hw, if_pos hw, accept_all_append]
    · rw [if_neg hw, if_neg hw]
      rfl
  rw [hpre]
  by_cases hrun : (c.accepting || socket_ok) = true
  · have hacc : (init_kvmi_start c socket_ok).accepting = true := hrun
    rw [accept_all_running _ _ hacc]
    unfold accepted_handles
    rw [if_pos hrun]
    refine ⟨rfl, ?_⟩
    by_cases hnil : (if socket_ok && gettimeofday_ok then during else []) ++ late = []
    · rw [hnil]
      rfl
    · exact foldl_last_accepted _ _ hnil
  · have hacc : (init_kvmi_start c socket_ok).accepting = false := by
      simpa [init_kvmi_start] using hrun
    rw [accept_all_stopped _ _ hacc]
    unfold accepted_handles
    rw [if_neg hrun]
    simp [init_kvmi_start, callback_effects]

/-- C19 (counterexample): the socket is set up, no callback runs during the
wait, the wait times out (`ETIMEDOUT`), and the accept thread hands over the
handles 7 and 8 after the mutex is unlocked and before the caller reaches
`kvmi_uninit`. `init_kvmi` returns `false`. The second callback closes the
handle 7, which the first late callback captured, while the accept thread
still runs: the close of 7 comes before `uninit` in the trace. -/
theorem init_kvmi_late_handle_closed_before_uninit :
    (init_kvmi fresh_connection true true [] 110 [7, 8]).1 = false ∧
    (init_kvmi fresh_connection true true [] 110 [7, 8]).2.trace
      = [ConnEffect.connect 7, ConnEffect.connect 8, ConnEffect.domain_close 7,
         ConnEffect.uninit, ConnEffect.domain_close 8] ∧
    (before_uninit fresh_connection true true [] [7, 8]).accepting = true ∧
    closed_handles (before_uninit fresh_connection true true [] [7, 8]).trace = [7] := by
  decide

/-- C19 (amended): when the wait of `init_kvmi` ends with an error (the
socket could not be set up, `gettimeofday` failed, or
`pthread_cond_timedwait` returned a nonzero value such as a timeout),
`init_kvmi` returns `false` and the accept thread does not run any more.
The trace grows by what the accept callbacks did, then `uninit`, then the
close of the stored handle, which is the handle of the last accept callback
(nothing if no callback ran): `init_kvmi` itself closes a handle only after
`kvmi_uninit`. The handles closed before `kvmi_uninit` are those of all
accept callbacks but the last, each closed by the callback that replaces
it; if at most one accept callback ran, no handle is closed before
`kvmi_uninit`. -/
theorem init_kvmi_stops_thread_before_close (c : kvm_connection)
    (socket_ok gettimeofday_ok : Bool) (during : List Nat) (timedwait : Int) (late : List Nat)
    (herr : ¬ (socket_ok = true ∧ gettimeofday_ok = true ∧ timedwait = 0)) :
    (init_kvmi c socket_ok gettimeofday_ok during timedwait late).1 = false ∧
    (init_kvmi c socket_ok gettimeofday_ok during timedwait late).2.accepting = false ∧
    (init_kvmi c socket_ok gettimeofday_ok during timedwait late).2.trace
      = c.trace
          ++ callback_effects none (accepted_handles c socket_ok gettimeofday_ok during late)
          ++ ConnEffect.uninit ::
            (accepted_handles c socket_ok gettimeofday_ok during late).getLast?.toList.map
              ConnEffect.domain_close ∧
    closed_handles
        (callback_effects none (accepted_handles c socket_ok gettimeofday_ok during late))
      = (accepted_handles c socket_ok gettimeofday_ok during late).dropLast ∧
    ((accepted_handles c socket_ok gettimeofday_ok during late).length ≤ 1 →
      closed_handles
          (callback_effects none (accepted_handles c socket_ok gettimeofday_ok during late))
        = []) := by
  have hne : (if (socket_ok && gettimeofday_ok) = true then timedwait else -1) ≠ 0 := by
    by_cases hw : (socket_ok && gettimeofday_ok) = true
    · rw [if_pos hw]
      intro h0
      apply herr
      simp only [Bool.and_eq_true] at hw
      exact ⟨hw.1, hw.2, h0⟩
    · rw [if_neg hw]
      decide
  have hres : init_kvmi c socket_ok gettimeofday_ok during timedwait late
      = (false, init_kvmi_failure_exit
          (before_uninit c socket_ok gettimeofday_ok during late)) := by
    unfold init_kvmi before_uninit
    simp only [hne, ne_eq, not_false_eq_true, if_true]
  have hspec := before_uninit_spec c socket_ok gettimeofday_ok during late
  have hclosed := closed_handles_callbacks_from_null
    (accepted_handles c socket_ok gettimeofday_ok during late)
  rw [hres]
  refine ⟨rfl, ?_, ?_, hclosed, ?_⟩
  · unfold init_kvmi_failure_exit kvmi_uninit
    cases (before_uninit c socket_ok gettimeofday_ok during late).kvmi_dom <;> rfl
  · rw [← hspec.1, ← hspec.2]
    unfold init_kvmi_failure_exit kvmi_uninit
    cases (before_uninit c socket_ok gettimeofday_ok during late).kvmi_dom <;>
      simp [kvmi_domain_close]
  · intro hlen
    rw [hclosed]
    match accepted_handles c socket_ok gettimeofday_ok during late, hlen with
    | [], _ => rfl
    | [_], _ => rfl
    | _ :: _ :: _, h => simp at h

/-- C19 (amended), at a concrete input: the wait times out, then the accept
thread hands over the handle 7 before the caller stops it. The handle 7 is
closed after `uninit`, and nothing is closed before. -/
theorem init_kvmi_stops_thread_before_close_witness :
    ¬ (true = true ∧ true = true ∧ (110 : Int) = 0) ∧
    (init_kvmi fresh_connection true true [] 110 [7]).1 = false ∧
    (init_kvmi fresh_connection true true [] 110 [7]).2.accepting = false ∧
    (init_kvmi fresh_connection true true [] 110 [7]).2.trace
      = [ConnEffect.connect 7] ++ ConnEffect.uninit :: [ConnEffect.domain_close 7] ∧
    closed_handles (callback_effects none (accepted_handles fresh_connection true true [] [7]))
      = [] :=
  have h := init_kvmi_stops_thread_before_close fresh_connection true true [] 110 [7]
    (by decide)
  ⟨by decide, h.1, h.2.1, h.2.2.1, h.2.2.2.2 (by decide)⟩

/-- C20 (the code at a failing input): the caller enters `init_kvmi`, the
wait times out, the accept thread hands over the handle 7 before it is
stopped, and the caller leaves through the failure block. The handle 7 is
closed and is still the stored handle: the invariant does not hold. A
`kvm_destroy` after that closes the handle 7 a second time. -/
theorem failed_init_leaves_closed_handle_stored :
    (conn_run fresh_connection
      [.init_start true, .accept 7, .timeout_exit]).kvmi_dom = some 7 ∧
    closed_handles (conn_run fresh_connection
      [.init_start true, .accept 7, .timeout_exit]).trace = [7] ∧
    ¬ handle_invariant (conn_run fresh_connection
      [.init_start true, .accept 7, .timeout_exit]) ∧
    closed_handles (conn_run fresh_connection
      [.init_start true, .accept 7, .timeout_exit, .destroy]).trace = [7, 7] ∧
    ¬ handle_invariant (conn_run fresh_connection
      [.init_start true, .accept 7, .timeout_exit, .destroy]) := by
  refine ⟨by decide, by decide, ?_, by decide, ?_⟩
  · intro h
    exact absurd h.1 (by decide)
  · intro h
    exact absurd h.2.2 (by decide)

/-! ## The pause counter over any sequence of calls -/

theorem wait_event_vcpu_count (d : KvmiDom) (timeout : Nat) :
    (kvmi_wait_event d timeout).2.vcpu_count = d.vcpu_count := by
  unfold kvmi_wait_event
  split_ifs <;> rfl

theorem pop_event_vcpu_count (d : KvmiDom) :
    (kvmi_pop_event d).2.2.vcpu_count = d.vcpu_count := by
  unfold kvmi_pop_event
  split
  · rfl
  · split_ifs <;> rfl

theorem reply_continue_vcpu_count (K : KvmiConsts) (d : KvmiDom) (ev : kvmi_dom_event) :
    (reply_continue K d ev).2.vcpu_count = d.vcpu_count := by
  unfold reply_continue kvmi_reply_event
  simp only []
  split_ifs <;> rfl

theorem kvm_resume_loop_count_le (K : KvmiConsts) (fuel : Nat) :
    ∀ (vmi : vmi_instance) (r : status_t × vmi_instance),
      vmi.expected_pause_count < 4294967296 →
      kvm_resume_loop K fuel vmi = some r →
      r.2.expected_pause_count ≤ vmi.expected_pause_count ∧
      r.2.kvmi_dom.vcpu_count = vmi.kvmi_dom.vcpu_count := by
  induction fuel with
  | zero =>
    intro vmi r _
    rw [kvm_resume_loop]
    split_ifs with hc
    · intro h
      cases h
      exact ⟨Nat.le_refl _, rfl⟩
    · intro h
      cases h
  | succ fuel ih =>
    intro vmi r h32
    have hw := wait_event_vcpu_count vmi.kvmi_dom 1000
    have hp := pop_event_vcpu_count (kvmi_wait_event vmi.kvmi_dom 1000).2
    rw [kvm_resume_loop]
    split_ifs with hc
    · intro h
      cases h
      exact ⟨Nat.le_refl _, rfl⟩
    · simp only []
      split_ifs
      · intro h
        cases h
        exact ⟨Nat.le_refl _, hw⟩
      · intro h
        cases h
        exact ⟨Nat.le_refl _, hp.trans hw⟩
      · split
        · intro h
          cases h
          exact ⟨Nat.le_refl _, hp.trans hw⟩
        · rename_i ev hev
          have hr := reply_continue_vcpu_count K
            (kvmi_pop_event (kvmi_wait_event vmi.kvmi_dom 1000).2).2.2 ev
          have hdec : (vmi.expected_pause_count + 4294967295) % 4294967296
              = vmi.expected_pause_count - 1 := by omega
          split_ifs
          · intro h
            cases h
            refine ⟨?_, ?_⟩
            · simp only [hdec]
              omega
            · exact hr.trans (hp.trans hw)
          · intro h
            obtain ⟨h1, h2⟩ := ih _ r (by simp only [hdec]; omega) h
            refine ⟨?_, ?_⟩
            · simp only [hdec] at h1
              omega
            · rw [h2]
              exact hr.trans (hp.trans hw)
          · intro h
            cases h
            exact ⟨Nat.le_refl _, hp.trans hw⟩

theorem call_event_callback_frame (vmi : vmi_instance) (event : vmi_event_t) :
    (call_event_callback vmi event).expected_pause_count = vmi.expected_pause_count ∧
    (call_event_callback vmi event).kvmi_dom = vmi.kvmi_dom :=
  ⟨rfl, rfl⟩

theorem generic_loop_frame (kvmi_event : kvmi_dom_event) (out_access : Nat)
    (table : List (Nat × vmi_event_t)) :
    ∀ (vmi : vmi_instance) (cb_issued : Bool),
      (generic_loop kvmi_event out_access table vmi cb_issued).2.expected_pause_count
        = vmi.expected_pause_count ∧
      (generic_loop kvmi_event out_access table vmi cb_issued).2.kvmi_dom = vmi.kvmi_dom := by
  induction table with
  | nil => intro vmi cb_issued; exact ⟨rfl, rfl⟩
  | cons w rest ih =>
    intro vmi cb_issued
    obtain ⟨key, libvmi_event⟩ := w
    simp only [generic_loop]
    split_ifs
    · exact ih _ _
    · exact ih _ _

theorem process_pagefault_generic_frame (vmi : vmi_instance) (kvmi_event : kvmi_dom_event)
    (out_access : Nat) :
    (process_pagefault_generic vmi kvmi_event out_access).2.expected_pause_count
      = vmi.expected_pause_count ∧
    (process_pagefault_generic vmi kvmi_event out_access).2.kvmi_dom = vmi.kvmi_dom := by
  have h := generic_loop_frame kvmi_event out_access vmi.mem_events_generic vmi false
  unfold process_pagefault_generic
  simp only []
  split_ifs
  · exact h
  · exact h
  · exact ⟨rfl, rfl⟩

theorem process_pagefault_frame (vmi : vmi_instance) (kvmi_event : kvmi_dom_event) :
    (process_pagefault vmi kvmi_event).2.expected_pause_count = vmi.expected_pause_count ∧
    (process_pagefault vmi kvmi_event).2.kvmi_dom = vmi.kvmi_dom := by
  have h := process_pagefault_generic_frame vmi kvmi_event
    (build_out_access kvmi_event.page_fault_mode)
  unfold process_pagefault
  simp only []
  split_ifs
  · split
    · split_ifs
      · exact ⟨rfl, rfl⟩
      · exact h
    · exact h
  · exact h

theorem process_interrupt_frame (vmi : vmi_instance) (kvmi_event : kvmi_dom_event) :
    (process_interrupt vmi kvmi_event).2.expected_pause_count = vmi.expected_pause_count ∧
    (process_interrupt vmi kvmi_event).2.kvmi_dom = vmi.kvmi_dom := by
  unfold process_interrupt
  split <;> exact ⟨rfl, rfl⟩

theorem kvm_init_vmi_handlers_frame (K : KvmiConsts) (init_flags ev_reason : Nat)
    (handler : event_handler)
    (h : kvm_init_vmi_process_event K init_flags ev_reason = some handler)
    (vmi : vmi_instance) (event : kvmi_dom_event) :
    (handler vmi event).2.expected_pause_count = vmi.expected_pause_count ∧
    (handler vmi event).2.kvmi_dom = vmi.kvmi_dom := by
  unfold kvm_init_vmi_process_event at h
  split_ifs at h
  · simp only [] at h
    split_ifs at h
    · cases h; exact ⟨rfl, rfl⟩
    · cases h; exact process_pagefault_frame vmi event
    · cases h; exact process_interrupt_frame vmi event
    · cases h; exact ⟨rfl, rfl⟩

theorem kvm_events_listen_frame (K : KvmiConsts) (process_event : Nat → Option event_handler)
    (hframe : ∀ ev_reason handler, process_event ev_reason = some handler →
      ∀ vmi event,
        (handler vmi event).2.expected_pause_count = vmi.expected_pause_count ∧
        (handler vmi event).2.kvmi_dom = vmi.kvmi_dom)
    (vmi : vmi_instance) (timeout : Nat) :
    (kvm_events_listen K process_event vmi timeout).2.expected_pause_count
      = vmi.expected_pause_count ∧
    (kvm_events_listen K process_event vmi timeout).2.kvmi_dom.vcpu_count
      = vmi.kvmi_dom.vcpu_count := by
  have hw := wait_event_vcpu_count vmi.kvmi_dom timeout
  have hp := pop_event_vcpu_count (kvmi_wait_event vmi.kvmi_dom timeout).2
  unfold kvm_events_listen
  simp only []
  split_ifs
  · exact ⟨rfl, hw⟩
  · exact ⟨rfl, hw⟩
  · exact ⟨rfl, hp.trans hw⟩
  · split
    · exact ⟨rfl, hp.trans hw⟩
    · rename_i event hev
      split
      · exact ⟨rfl, hp.trans hw⟩
      · rename_i handler hh
        have hproc : process_event event.event = some handler := by
          split_ifs at hh
          exact hh
        obtain ⟨h1, h2⟩ := hframe _ handler hproc
          { vmi with kvmi_dom := (kvmi_pop_event (kvmi_wait_event vmi.kvmi_dom timeout).2).2.2 }
          event
        have hr := reply_continue_vcpu_count K (handler
          { vmi with kvmi_dom := (kvmi_pop_event (kvmi_wait_event vmi.kvmi_dom timeout).2).2.2 }
          event).2.kvmi_dom event
        split_ifs
        · refine ⟨h1, ?_⟩
          simp only [KvmiDom.log, h2]
          exact hp.trans hw
        · refine ⟨h1, ?_⟩
          simp only [KvmiDom.log]
          rw [hr, h2]
          exact hp.trans hw
        · refine ⟨h1, ?_⟩
          simp only []
          rw [hr, h2]
          exact hp.trans hw

theorem kvm_pause_vm_bounded (vmi : vmi_instance)
    (hle : vmi.expected_pause_count ≤ vmi.kvmi_dom.vcpu_count) :
    (kvm_pause_vm vmi).2.expected_pause_count ≤ (kvm_pause_vm vmi).2.kvmi_dom.vcpu_count ∧
    (kvm_pause_vm vmi).2.kvmi_dom.vcpu_count = vmi.kvmi_dom.vcpu_count := by
  unfold kvm_pause_vm kvmi_pause_all_vcpus
  by_cases hc : vmi.expected_pause_count = 0
  · by_cases hs : vmi.kvmi_dom.script 0 = 0
    · simp [hc, hs, KvmiDom.request]
    · simp [hc, hs, KvmiDom.request]
  · simp [hc, hle]

theorem kvm_resume_vm_bounded (K : KvmiConsts) (vmi : vmi_instance)
    (h32 : vmi.expected_pause_count < 4294967296) :
    ∃ st vmi', kvm_resume_vm K vmi = some (st, vmi') ∧
      vmi'.expected_pause_count ≤ vmi.expected_pause_count ∧
      vmi'.kvmi_dom.vcpu_count = vmi.kvmi_dom.vcpu_count := by
  have hsome := kvm_resume_vm_returns K vmi
  obtain ⟨r, hr⟩ := Option.isSome_iff_exists.mp hsome
  have hloop := hr
  rw [kvm_resume_vm_eq_loop] at hloop
  obtain ⟨h1, h2⟩ := kvm_resume_loop_count_le K _ vmi r h32 hloop
  exact ⟨r.1, r.2, hr, h1, h2⟩

theorem driver_call_bounded (K : KvmiConsts) (init_flags : Nat) (vmi : vmi_instance)
    (call : DriverCall)
    (hle : vmi.expected_pause_count ≤ vmi.kvmi_dom.vcpu_count)
    (h32 : vmi.kvmi_dom.vcpu_count < 4294967296) :
    ∃ vmi', driver_call K init_flags vmi call = some vmi' ∧
      vmi'.expected_pause_count ≤ vmi'.kvmi_dom.vcpu_count ∧
      vmi'.kvmi_dom.vcpu_count = vmi.kvmi_dom.vcpu_count := by
  cases call with
  | pause =>
    obtain ⟨h1, h2⟩ := kvm_pause_vm_bounded vmi hle
    exact ⟨_, rfl, h1, h2⟩
  | resume =>
    obtain ⟨st, vmi', hr, h1, h2⟩ := kvm_resume_vm_bounded K vmi (by omega)
    refine ⟨vmi', by simp [driver_call, hr], ?_, h2⟩
    omega
  | listen timeout =>
    obtain ⟨h1, h2⟩ := kvm_events_listen_frame K (kvm_init_vmi_process_event K init_flags)
      (fun ev_reason handler h => kvm_init_vmi_handlers_frame K init_flags ev_reason handler h)
      vmi timeout
    refine ⟨_, rfl, ?_, h2⟩
    rw [h1, h2]
    exact hle

theorem driver_calls_bounded (K : KvmiConsts) (init_flags : Nat) (calls : List DriverCall) :
    ∀ vmi : vmi_instance,
      vmi.expected_pause_count ≤ vmi.kvmi_dom.vcpu_count →
      vmi.kvmi_dom.vcpu_count < 4294967296 →
      ∃ vmi', driver_calls K init_flags vmi calls = some vmi' ∧
        vmi'.expected_pause_count ≤ vmi'.kvmi_dom.vcpu_count ∧
        vmi'.kvmi_dom.vcpu_count = vmi.kvmi_dom.vcpu_count := by
  induction calls with
  | nil => intro vmi hle _; exact ⟨vmi, rfl, hle, rfl⟩
  | cons call rest ih =>
    intro vmi hle h32
    obtain ⟨vmi1, hcall, hle1, hcount1⟩ := driver_call_bounded K init_flags vmi call hle h32
    obtain ⟨vmi2, hrest, hle2, hcount2⟩ := ih vmi1 hle1 (by omega)
    refine ⟨vmi2, ?_, hle2, hcount2.trans hcount1⟩
    simp [driver_calls, hcall, hrest]

/-- C12: the pause counter never wraps. Start from a driver whose counter
is 0, on a transport that reports a VCPU count below 2^32, and make any
sequence of calls of `kvm_pause_vm`, `kvm_resume_vm` and `kvm_events_listen`,
whatever the transport answers. Every call returns, and in the state
reached the counter lies between 0 and the VCPU count that a pause-all
request reports. A `kvm_resume_vm` from that state returns with a counter
that is not above the one it started with: the decrement of the unsigned
counter, which would turn 0 into 2^32 - 1, is only ever applied to a
counter above 0. -/
theorem pause_count_never_wraps (K : KvmiConsts) (init_flags : Nat) (vmi : vmi_instance)
    (calls : List DriverCall)
    (hfresh : vmi.expected_pause_count = 0)
    (h32 : vmi.kvmi_dom.vcpu_count < 4294967296) :
    ∃ vmi', driver_calls K init_flags vmi calls = some vmi' ∧
      vmi'.expected_pause_count ≤ vmi'.kvmi_dom.vcpu_count ∧
      vmi'.kvmi_dom.vcpu_count = vmi.kvmi_dom.vcpu_count ∧
      ∃ st vmi'', kvm_resume_vm K vmi' = some (st, vmi'') ∧
        vmi''.expected_pause_count ≤ vmi'.expected_pause_count := by
  obtain ⟨vmi', hrun, hle, hcount⟩ :=
    driver_calls_bounded K init_flags calls vmi (by omega) h32
  obtain ⟨st, vmi'', hr, h1, _⟩ := kvm_resume_vm_bounded K vmi' (by omega)
  exact ⟨vmi', hrun, hle, hcount, st, vmi'', hr, h1⟩

/-- C12, at a concrete input: pause, poll, resume with a failing wait,
resume, pause on a four-VCPU driver whose transport has three pause
confirmations to deliver. -/
theorem pause_count_never_wraps_witness :
    ∃ vmi', driver_calls exampleConsts VMI_INIT_EVENTS
        (exampleVmi true 0 (fun i => if i = 6 then 5 else 0)
          [exampleEvent 11 10 0, exampleEvent 12 10 1, exampleEvent 13 10 2])
        [.pause, .listen 100, .resume, .resume, .pause] = some vmi' ∧
      vmi'.expected_pause_count ≤ vmi'.kvmi_dom.vcpu_count ∧
      vmi'.kvmi_dom.vcpu_count = 4 ∧
      ∃ st vmi'', kvm_resume_vm exampleConsts vmi' = some (st, vmi'') ∧
        vmi''.expected_pause_count ≤ vmi'.expected_pause_count :=
  pause_count_never_wraps exampleConsts VMI_INIT_EVENTS
    (exampleVmi true 0 (fun i => if i = 6 then 5 else 0)
      [exampleEvent 11 10 0, exampleEvent 12 10 1, exampleEvent 13 10 2])
    [.pause, .listen 100, .resume, .resume, .pause] rfl (by decide)

/-! ## Page faults and the exact-frame watchers -/

theorem lookup_some_length (table : List (Nat × vmi_event_t)) (key : Nat)
    (libvmi_event : vmi_event_t) (h : g_hash_table_lookup table key = some libvmi_event) :
    table.length ≠ 0 := by
  intro hlen
  have hnil : table = [] := List.length_eq_zero.mp hlen
  rw [hnil] at h
  simp [g_hash_table_lookup] at h

theorem process_pagefault_exact (vmi : vmi_instance) (kvmi_event : kvmi_dom_event)
    (libvmi_event : vmi_event_t)
    (hlook : g_hash_table_lookup vmi.mem_events_on_gfn (kvmi_event.page_fault_gpa >>> 12)
      = some libvmi_event)
    (hmask : libvmi_event.mem_event.in_access
      &&& build_out_access kvmi_event.page_fault_mode ≠ 0) :
    process_pagefault vmi kvmi_event
      = (VMI_SUCCESS,
          call_event_callback vmi
            (fill_mem_event kvmi_event (build_out_access kvmi_event.page_fault_mode)
              libvmi_event)) := by
  have hlen := lookup_some_length _ _ _ hlook
  unfold process_pagefault
  simp only [hlen, ne_eq, not_false_eq_true, if_true, hlook]
  simp only [hmask, ne_eq, not_false_eq_true, if_true]

/-- C21: the exact-frame watchers come first. For a page-fault event whose
faulting frame (`gpa >> 12`) has a watcher in the exact-frame table, with a
filter that intersects the observed access, `process_pagefault` returns
`VMI_SUCCESS` and calls one callback, the one of that watcher, once; no
callback of a generic watcher is called, whatever the generic table holds.
The event handed to the callback is that watcher with `out_access` set to
the observed access, `offset` to `gpa mod 4096`, `gla` to the faulting
virtual address and `vcpu_id` to the VCPU of the event. -/
theorem pagefault_exact_frame_priority (vmi : vmi_instance) (kvmi_event : kvmi_dom_event)
    (libvmi_event : vmi_event_t)
    (hlook : g_hash_table_lookup vmi.mem_events_on_gfn (kvmi_event.page_fault_gpa >>> 12)
      = some libvmi_event)
    (hmask : libvmi_event.mem_event.in_access
      &&& build_out_access kvmi_event.page_fault_mode ≠ 0) :
    (process_pagefault vmi kvmi_event).1 = VMI_SUCCESS ∧
    (process_pagefault vmi kvmi_event).2.callbacks
      = vmi.callbacks
          ++ [fill_mem_event kvmi_event (build_out_access kvmi_event.page_fault_mode)
                libvmi_event] ∧
    fill_mem_event kvmi_event (build_out_access kvmi_event.page_fault_mode) libvmi_event
      = { libvmi_event with
          vcpu_id := kvmi_event.vcpu
          mem_event := { libvmi_event.mem_event with
            out_access := build_out_access kvmi_event.page_fault_mode
            gla := kvmi_event.page_fault_gva
            offset := kvmi_event.page_fault_gpa % 4096 } } := by
  rw [process_pagefault_exact vmi kvmi_event libvmi_event hlook hmask]
  refine ⟨rfl, rfl, ?_⟩
  have hoff : kvmi_event.page_fault_gpa &&& 4095 = kvmi_event.page_fault_gpa % 4096 :=
    Nat.and_pow_two_sub_one_eq_mod kvmi_event.page_fault_gpa 12
  simp only [fill_mem_event, fill_ev_common_kvmi_to_libvmi, hoff]

/-- C21, at a concrete input: an instruction fetch in frame 5. The
exact-frame watcher of frame 5 (callback 1) asks for execute accesses and is
called, with `out_access` X and the offset 0x123; the generic watcher for
execute accesses (callback 3) is not called. -/
theorem pagefault_exact_frame_priority_witness :
    (process_pagefault (exampleWatchers (exampleVmi true 0 (fun _ => 0) []))
      exampleExecFault).1 = VMI_SUCCESS ∧
    (process_pagefault (exampleWatchers (exampleVmi true 0 (fun _ => 0) []))
      exampleExecFault).2.callbacks.map
        (fun e => (e.callback, e.mem_event.out_access, e.mem_event.offset))
      = [(1, VMI_MEMACCESS_X, 0x123)] := by
  have h := pagefault_exact_frame_priority
    (exampleWatchers (exampleVmi true 0 (fun _ => 0) [])) exampleExecFault
    { callback := 1, mem_event := { in_access := VMI_MEMACCESS_X } } rfl (by decide)
  refine ⟨h.1, ?_⟩
  rw [h.2.1]
  decide

/-! ## The requests N and RWX -/

end KvmDriver
